import Mathlib

/-!
Shallow embedding of `src/sentry/feedback/usecases/create_feedback.py`
(the user-feedback ingestion pipeline) together with theorems settling
the specification claims about it.

Python dictionaries are modelled as insertion-ordered association lists
over a JSON-like value type `JVal`.  Side effects (metric increments,
signal dispatch, Kafka publishes, outcome accounting, log calls) are
collected in an explicit trace of `Effect`s.  External collaborators
(feature-flag store, project options, the spam classifier, the uuid
generator, the two jsonschema documents, Kafka) are abstracted as an
`Env` record; their behaviour is not in the source file, so they are
modelled as opaque parameters consistent with the specification.
-/

namespace Sentry

/-- JSON-like Python values: `None`, booleans, numbers (modelled as
integers), strings, dicts (insertion-ordered association lists) and
lists. -/
inductive JVal where
  | null : JVal
  | bool : Bool → JVal
  | int : Int → JVal
  | str : String → JVal
  | obj : List (String × JVal) → JVal
  | arr : List JVal → JVal
deriving Repr, Inhabited

namespace JVal

/-- First binding of key `k` in an association list, if any. -/
def lookupKey : List (String × JVal) → String → Option JVal
  | [], _ => none
  | (k', v) :: rest, k => if k' = k then some v else lookupKey rest k

/-- Python `d.get(k, default)` on the raw field list. -/
def getD (fs : List (String × JVal)) (k : String) (d : JVal) : JVal :=
  (lookupKey fs k).getD d

/-- Python `d[k] = v`: replace the binding in place when present
(CPython keeps the original insertion position), append otherwise. -/
def setKey : List (String × JVal) → String → JVal → List (String × JVal)
  | [], k, v => [(k, v)]
  | (k', v') :: rest, k, v =>
    if k' = k then (k', v) :: rest else (k', v') :: setKey rest k v

/-- Python `del d[k]`: removes the binding for `k`. -/
def delKey : List (String × JVal) → String → List (String × JVal)
  | [], _ => []
  | (k', v') :: rest, k =>
    if k' = k then rest else (k', v') :: delKey rest k

/-- Python truthiness of a value. -/
def truthy : JVal → Bool
  | .null => false
  | .bool b => b
  | .int n => n ≠ 0
  | .str s => s ≠ ""
  | .obj fs => !fs.isEmpty
  | .arr xs => !xs.isEmpty

/-- Python `v is None`. -/
def isNone : JVal → Bool
  | .null => true
  | _ => false

end JVal

/-- The whitespace characters stripped by Python's `str.strip()` (ASCII
subset; the pipeline only ever strips feedback messages). -/
def isPySpace (c : Char) : Bool :=
  c = ' ' || c = '\t' || c = '\n' || c = '\r' || c = '\x0b' || c = '\x0c'

/-- Python `s.strip()`. -/
def pyStrip (s : String) : String :=
  String.mk (((s.toList.dropWhile isPySpace).reverse.dropWhile isPySpace).reverse)

/-- Python `str(v)` for the scalar values the pipeline stringifies
(`user.id` coercion and `str(True)` in evidence).  Containers never
reach `str` in any claim-relevant path; they are rendered abstractly. -/
def pyStr : JVal → String
  | .null => "None"
  | .bool true => "True"
  | .bool false => "False"
  | .int n => toString n
  | .str s => s
  | .obj _ => "<dict>"
  | .arr _ => "<list>"

/-- ISO-8601 rendering of `datetime.fromtimestamp(ts, UTC)`.  The
`datetime` library is external to the source file; its rendering is
modelled as an injective tagged string (no claim inspects the text). -/
def isoOfTimestamp (ts : Int) : String :=
  "datetime(" ++ toString ts ++ ")"

/-- Python exceptions that the embedded code can raise. -/
inductive PyErr where
  | keyError : PyErr
  | typeError : PyErr
  | schemaError : PyErr
  | publishError : PyErr
deriving DecidableEq, Repr

/-- Python `d.get(k, default)` where `d` is an arbitrary value:
`AttributeError` (modelled as `typeError`) when `d` is not a dict. -/
def pyGetD (v : JVal) (k : String) (d : JVal) : Except PyErr JVal :=
  match v with
  | .obj fs => .ok (JVal.getD fs k d)
  | _ => .error .typeError

/-- Python `d.get(k)`. -/
def pyGet (v : JVal) (k : String) : Except PyErr JVal :=
  pyGetD v k .null

/-- Python `d[k]`: `KeyError` when absent, `TypeError` when `d` is not
a dict. -/
def pyItem (v : JVal) (k : String) : Except PyErr JVal :=
  match v with
  | .obj fs =>
    match JVal.lookupKey fs k with
    | some x => .ok x
    | none => .error .keyError
  | _ => .error .typeError

end Sentry

namespace Sentry

/-- The sentinel message sent by the legacy Unreal unattended path
(`UNREAL_FEEDBACK_UNATTENDED_MESSAGE` in the source). -/
def UNREAL_FEEDBACK_UNATTENDED_MESSAGE : String := "Sent in the unattended mode"

/-- `FeedbackCreationSource` enum from the source. -/
inductive FeedbackCreationSource where
  | NEW_FEEDBACK_ENVELOPE
  | NEW_FEEDBACK_DJANGO_ENDPOINT
  | USER_REPORT_DJANGO_ENDPOINT
  | USER_REPORT_ENVELOPE
  | CRASH_REPORT_EMBED_FORM
  | UPDATE_USER_REPORTS_TASK
deriving DecidableEq, Repr

/-- The `.value` string of each enum member. -/
def FeedbackCreationSource.value : FeedbackCreationSource → String
  | .NEW_FEEDBACK_ENVELOPE => "new_feedback_envelope"
  | .NEW_FEEDBACK_DJANGO_ENDPOINT => "new_feedback_sentry_django_endpoint"
  | .USER_REPORT_DJANGO_ENDPOINT => "user_report_sentry_django_endpoint"
  | .USER_REPORT_ENVELOPE => "user_report_envelope"
  | .CRASH_REPORT_EMBED_FORM => "crash_report_embed_form"
  | .UPDATE_USER_REPORTS_TASK => "update_user_reports_task"

/-- `sentry.issues.issue_occurrence.IssueEvidence` (external to this
file): a display triple.  Values are passed through unconverted at the
call sites, so `value` is a `JVal`. -/
structure IssueEvidence where
  name : String
  value : JVal
  important : Bool
deriving Repr

/-- Group type constant `FeedbackGroup` (external class, used only as a
tag on the occurrence). -/
inductive GroupType where
  | FeedbackGroup
deriving DecidableEq, Repr

/-- `GroupStatus` constants (external module `sentry.models.group`). -/
inductive GroupStatus where
  | UNRESOLVED
  | RESOLVED
  | IGNORED
deriving DecidableEq, Repr

/-- `GroupSubStatus` constants (external module `sentry.types.group`). -/
inductive GroupSubStatus where
  | FOREVER
  | UNTIL_ESCALATING
deriving DecidableEq, Repr

/-- `Outcome` constants (external module `sentry.utils.outcomes`). -/
inductive Outcome where
  | ACCEPTED
  | FILTERED
  | INVALID
deriving DecidableEq, Repr

/-- `DataCategory` constants (external module `sentry.constants`). -/
inductive DataCategory where
  | USER_REPORT_V2
  | ERROR
deriving DecidableEq, Repr

/-- The `IssueOccurrence` record as constructed at the single call site
in `create_feedback_issue`. -/
structure IssueOccurrence where
  id : String
  event_id : JVal
  project_id : Int
  fingerprint : List String
  issue_title : String
  subtitle : JVal
  resource_id : Option JVal
  evidence_data : List (String × JVal)
  evidence_display : List IssueEvidence
  type : GroupType
  detection_time : Int
  culprit : String
  level : JVal
deriving Repr

/-- `StatusChangeMessage` as constructed in `auto_ignore_spam_feedbacks`. -/
structure StatusChangeMessage where
  fingerprint : List String
  project_id : Int
  new_status : GroupStatus
  new_substatus : GroupSubStatus
deriving Repr

/-- The argument record of a `track_outcome` call. -/
structure OutcomeRecord where
  org_id : Int
  project_id : Int
  key_id : Option Int
  outcome : Outcome
  reason : Option String
  timestamp : Int
  event_id : JVal
  category : DataCategory
  quantity : Int
deriving Repr

/-- Observable side effects of one pipeline invocation, in program
order.  `validateCall` records one `jsonschema.validate` call
(`legacy` marks the fallback schema). -/
inductive Effect where
  | metricIncr (name : String) (tags : List (String × JVal))
  | logException (msg : String)
  | classify (message : JVal)
  | validateCall (payload : JVal) (legacy : Bool)
  | signalFirstFeedback (projectId : Int)
  | signalFirstNewFeedback (projectId : Int)
  | produceOccurrence (occurrence : IssueOccurrence) (eventData : JVal)
  | produceStatusChange (statusChange : StatusChangeMessage)
  | trackOutcome (outcome : OutcomeRecord)
deriving Repr

/-- The slice of a Sentry `Project` (an external Django model) that the
pipeline reads: its ids, the two organization feature flags consulted
via `features.has`, the spam-detection project option, and the two
persisted first-feedback latch flags. -/
structure Project where
  id : Int
  organization_id : Int
  orgFeatureSpamFilterIngest : Bool
  orgFeatureSpamFilterActions : Bool
  optionFeedbackAiSpamDetection : Bool
  flagHasFeedbacks : Bool
  flagHasNewFeedbacks : Bool
deriving Repr

/-- External collaborators of the pipeline, abstracted as data:
the project cache, the spam classifier (`.error` models a raised
exception), the uuid generator (a stream indexed by consumption
order), the wall clock, the two jsonschema documents (abstract
predicates; the schemas live outside this file), and the Kafka
producer.  Modelled from the spec: per §7 a failed publish raises
`PublishError`, which is propagated. -/
structure Env where
  getProject : Int → Project
  isSpamResult : JVal → Except Unit Bool
  uuid4hex : Nat → String
  nowIso : String
  utcnowTs : Int
  schemaOkCurrent : JVal → Bool
  schemaOkLegacy : JVal → Bool
  occurrencePublishOk : Bool
  statusChangePublishOk : Bool

/-- `make_evidence` from the source, over the raw field list of
`event["contexts"]["feedback"]` (a dict at every call site).  Python
truthiness gates each entry; `is_spam` is added only when the verdict
`is True`. -/
def make_evidence (feedback : List (String × JVal)) (source : FeedbackCreationSource)
    (is_message_spam : Option Bool) : List (String × JVal) × List IssueEvidence :=
  let assoc := JVal.getD feedback "associated_event_id" .null
  let email := JVal.getD feedback "contact_email" .null
  let msg := JVal.getD feedback "message" .null
  let nm := JVal.getD feedback "name" .null
  let evidence_data :=
    (if assoc.truthy then [("associated_event_id", assoc)] else []) ++
    (if email.truthy then [("contact_email", email)] else []) ++
    (if msg.truthy then [("message", msg)] else []) ++
    (if nm.truthy then [("name", nm)] else []) ++
    [("source", JVal.str source.value)] ++
    (if is_message_spam = some true then [("is_spam", JVal.bool true)] else [])
  let evidence_display :=
    (if assoc.truthy then [IssueEvidence.mk "associated_event_id" assoc false] else []) ++
    (if email.truthy then [IssueEvidence.mk "contact_email" email false] else []) ++
    (if msg.truthy then [IssueEvidence.mk "message" msg true] else []) ++
    (if nm.truthy then [IssueEvidence.mk "name" nm false] else []) ++
    [IssueEvidence.mk "source" (JVal.str source.value) false] ++
    (if is_message_spam = some true then
      [IssueEvidence.mk "is_spam" (JVal.str (pyStr (JVal.bool true))) false] else [])
  (evidence_data, evidence_display)

/-- The name of the filter-stage counter. -/
def filteredMetric : String := "feedback.create_feedback_issue.filtered"

/-- `should_filter_feedback` from the source: the `Bool` is the
filter verdict (`true` = reject); the trace holds the counter
increments.  A `TypeError` models the `AttributeError` Python raises
when a `.get`/`.strip` receiver has the wrong type. -/
def should_filter_feedback (event : JVal) (project_id : Int)
    (source : FeedbackCreationSource) : Except PyErr Bool × List Effect :=
  match pyGet event "contexts" with
  | .error e => (.error e, [])
  | .ok ctxv =>
    if ctxv.isNone then
      (.ok true, [.metricIncr filteredMetric [("reason", .str "missing_context")]])
    else
      match pyGet ctxv "feedback" with
      | .error e => (.error e, [])
      | .ok fbv =>
        if fbv.isNone then
          (.ok true, [.metricIncr filteredMetric [("reason", .str "missing_context")]])
        else
          match pyGet fbv "message" with
          | .error e => (.error e, [])
          | .ok msgv =>
            if msgv.isNone then
              (.ok true, [.metricIncr filteredMetric [("reason", .str "missing_context")]])
            else if (match msgv with
                     | .str s => s == UNREAL_FEEDBACK_UNATTENDED_MESSAGE
                     | _ => false) then
              (.ok true, [.metricIncr filteredMetric [("reason", .str "unreal.unattended")]])
            else
              match msgv with
              | .str s =>
                if pyStrip s = "" then
                  (.ok true, [.metricIncr filteredMetric [("reason", .str "empty")]])
                else (.ok false, [])
              | _ => (.error .typeError, [])

end Sentry

namespace Sentry

/-- `v[k] = x` when `v` is known to be a dict (helper for the in-place
mutations of `fix_for_issue_platform`; callers guard the type). -/
def objSet (v : JVal) (k : String) (x : JVal) : JVal :=
  match v with
  | .obj fs => .obj (JVal.setKey fs k x)
  | y => y

/-- `del v[k]` when `v` is known to be a dict. -/
def objDel (v : JVal) (k : String) : JVal :=
  match v with
  | .obj fs => .obj (JVal.delKey fs k)
  | y => y

/-- `d[k]` on a raw field list (`KeyError` when absent). -/
def reqKey (fs : List (String × JVal)) (k : String) : Except PyErr JVal :=
  match JVal.lookupKey fs k with
  | some v => .ok v
  | none => .error .keyError

/-- `datetime.fromtimestamp(v, UTC).isoformat()`: requires a numeric
timestamp (`TypeError` otherwise). -/
def fromtimestampIso (v : JVal) : Except PyErr String :=
  match v with
  | .int ts => .ok (isoOfTimestamp ts)
  | _ => .error .typeError

/-- Lines 113-120 of the source: the replay back-compat synthesis.
`ret_event["contexts"]` aliases the input's contexts dict, so the
synthesized `replay` block lands in both.  A non-dict contexts or
feedback value raises (`.get` on a non-dict). -/
def fixReplaySynth (ctxv : JVal) : Except PyErr JVal :=
  match ctxv with
  | .obj cfs =>
    if (JVal.getD cfs "replay" .null).truthy then .ok (.obj cfs)
    else
      match JVal.getD cfs "feedback" (.obj []) with
      | .obj ffs =>
        let rid := JVal.getD ffs "replay_id" .null
        if rid.truthy then
          .ok (.obj (JVal.setKey cfs "replay" (.obj [("replay_id", rid)])))
        else .ok (.obj cfs)
      | _ => .error .typeError
  | _ => .error .typeError

/-- Lines 136-142 of the source on the raw user field list: delete
`name` and `isStaff` when present, stringify `id` when present. -/
def fixUserMutationsCore (ufs : List (String × JVal)) : List (String × JVal) :=
  let u1 := if !(JVal.getD ufs "name" .null).isNone then JVal.delKey ufs "name" else ufs
  let u2 := if !(JVal.getD u1 "isStaff" .null).isNone then JVal.delKey u1 "isStaff" else u1
  if !(JVal.getD u2 "id" .null).isNone then
    JVal.setKey u2 "id" (JVal.str (pyStr (JVal.getD u2 "id" .null)))
  else u2

/-- Lines 136-142 of the source: the in-place user mutations; raises
when the user value is not a dict (`.get` on a non-dict). -/
def fixUserMutations (user0 : JVal) : Except PyErr JVal :=
  match user0 with
  | .obj ufs => .ok (.obj (fixUserMutationsCore ufs))
  | _ => .error .typeError

/-- Lines 144-148 of the source: when the user has no truthy email,
set `user.email` to the feedback's contact_email — even when that is
absent, in which case the key is set to `None`. -/
def fixEmailBackfill (retUser0 contact_email : JVal) : Except PyErr JVal :=
  match retUser0 with
  | .obj x =>
    .ok (.obj (if !(JVal.getD x "email" (.str "")).truthy then
      JVal.setKey x "email" contact_email else x))
  | _ => .error .typeError

/-- `fix_for_issue_platform` from the source.  Returns the post-state
of its (mutated) argument together with the freshly built `ret_event`;
the dicts `ret_event` shares with the input (`contexts`, `user`,
`tags`) carry the same post-mutation value in both outputs, which is
how CPython aliasing is reflected in this value-level model. -/
def fix_for_issue_platform (event_data : JVal) : Except PyErr (JVal × JVal) :=
  match event_data with
  | .obj fs => do
    let tsv ← reqKey fs "timestamp"
    let retTimestamp ← fromtimestampIso tsv
    let received ← reqKey fs "received"
    let projectId ← reqKey fs "project_id"
    -- line 111 aliases `event_data.get("contexts", {})`; line 115 then
    -- subscripts `event_data["contexts"]`, so an absent key raises.
    let ctxv ← reqKey fs "contexts"
    let ctx1 ← fixReplaySynth ctxv
    let eventId ← reqKey fs "event_id"
    let tags := JVal.getD fs "tags" (.arr [])
    let platform := JVal.getD fs "platform" (.str "other")
    let level := JVal.getD fs "level" (.str "info")
    let environment := JVal.getD fs "environment" (.str "production")
    let sdkv := JVal.getD fs "sdk" .null
    let request := JVal.getD fs "request" (.obj [])
    let userPresent := (JVal.lookupKey fs "user").isSome
    let user0 := JVal.getD fs "user" (.obj [])
    -- the replay synthesis mutated the shared contexts dict in place
    let fs0 := JVal.setKey fs "contexts" ctx1
    -- `if event_data.get("dist") is not None: del event_data["dist"]`
    let fs1 := if !(JVal.getD fs0 "dist" .null).isNone then JVal.delKey fs0 "dist" else fs0
    let user3 ← fixUserMutations user0
    let fb1 ← pyGetD ctx1 "feedback" (JVal.obj [])
    let contact_email ← pyGet fb1 "contact_email"
    -- `ret_event["user"]` aliases the input's user dict only when the
    -- input had one; otherwise it is the fresh `{}` default.
    let retUser0 := if userPresent then user3 else JVal.obj []
    let retUser1 ← fixEmailBackfill retUser0 contact_email
    let msgv ← pyGet fb1 "message"
    let fs2 := if userPresent then JVal.setKey fs1 "user" retUser1 else fs1
    let retFs : List (String × JVal) :=
      [("timestamp", JVal.str retTimestamp),
       ("received", received),
       ("project_id", projectId),
       ("contexts", ctx1),
       ("event_id", eventId),
       ("tags", tags),
       ("platform", platform),
       ("level", level),
       ("environment", environment)] ++
      (if sdkv.truthy then [("sdk", sdkv)] else []) ++
      [("request", request),
       ("user", retUser1),
       ("logentry", JVal.obj [("message", msgv)])]
    pure (JVal.obj fs2, JVal.obj retFs)
  | _ => .error .typeError

/-- `validate_issue_platform_event_schema` from the source: current
schema first, legacy fallback second, counter + raise when both
fail.  The two schema documents are external; `Env` carries them as
abstract predicates. -/
def validate_issue_platform_event_schema (env : Env) (event_data : JVal) :
    Except PyErr Unit × List Effect :=
  if env.schemaOkCurrent event_data then
    (.ok (), [.validateCall event_data false])
  else if env.schemaOkLegacy event_data then
    (.ok (), [.validateCall event_data false, .validateCall event_data true])
  else
    (.error .schemaError,
     [.validateCall event_data false, .validateCall event_data true,
      .metricIncr "feedback.create_feedback_issue.invalid_schema" []])

/-- `auto_ignore_spam_feedbacks` from the source. -/
def auto_ignore_spam_feedbacks (env : Env) (project : Project)
    (issue_fingerprint : List String) : Except PyErr Unit × List Effect :=
  if project.orgFeatureSpamFilterActions then
    let m := Effect.metricIncr "feedback.spam-detection-actions.set-ignored" []
    if env.statusChangePublishOk then
      (.ok (),
       [m, .produceStatusChange
            { fingerprint := issue_fingerprint
              project_id := project.id
              new_status := .IGNORED
              new_substatus := .FOREVER }])
    else (.error .publishError, [m])
  else (.ok (), [])

/-- The message logged when the spam classifier raises. -/
def classifyLogMsg : String := "Error checking if message is spam"

/-- Lines 194-202 of the source: the spam verdict starts as `None` and
the classifier runs only when the organization feature flag and the
project option are both set; everything inside the `try` (including
the subscripts fetching the message) is caught, logged and mapped to
a `None` verdict. -/
def classifyStage (env : Env) (project : Project) (event : JVal) :
    Option Bool × List Effect :=
  if project.orgFeatureSpamFilterIngest && project.optionFeedbackAiSpamDetection then
    match (do
      let c ← pyItem event "contexts"
      let f ← pyItem c "feedback"
      pyItem f "message" : Except PyErr JVal) with
    | .ok m =>
      match env.isSpamResult m with
      | .ok b => (some b, [.classify m])
      | .error _ => (none, [.classify m, .logException classifyLogMsg])
    | .error _ => (none, [.logException classifyLogMsg])
  else (none, [])

/-- Lines 238-276 of `create_feedback_issue`: schema validation,
first-seen signals, the occurrence publish, the spam auto-triage, the
produced-occurrence counter and the outcome record.  Factored out of
`afterClassify` so the stages can be reasoned about separately;
`afterClassify` composes it unchanged. -/
def publishStage (env : Env) (project : Project) (project_id : Int)
    (source : FeedbackCreationSource) (is_message_spam : Option Bool)
    (occurrence : IssueOccurrence) (event_fixed : JVal)
    (outcome_event_id : JVal) (client_source : JVal) :
    Except PyErr Unit × List Effect :=
  let (vres, veff) := validate_issue_platform_event_schema env event_fixed
  match vres with
  | .error e => (.error e, veff)
  | .ok _ =>
    let sigEff :=
      (if !project.flagHasFeedbacks then
        [Effect.signalFirstFeedback project.id] else []) ++
      (if (source == .NEW_FEEDBACK_ENVELOPE ||
           source == .NEW_FEEDBACK_DJANGO_ENDPOINT) &&
          !project.flagHasNewFeedbacks then
        [Effect.signalFirstNewFeedback project.id] else [])
    if env.occurrencePublishOk then
      let pubEff := [Effect.produceOccurrence occurrence event_fixed]
      let (ares, aeff) :=
        if is_message_spam = some true then
          auto_ignore_spam_feedbacks env project occurrence.fingerprint
        else (.ok (), [])
      match ares with
      | .error e => (.error e, veff ++ sigEff ++ pubEff ++ aeff)
      | .ok _ =>
        let prodMetric :=
          [Effect.metricIncr "feedback.create_feedback_issue.produced_occurrence"
            [("referrer", JVal.str source.value),
             ("client_source", client_source)]]
        let outcomeEff :=
          [Effect.trackOutcome
            { org_id := project.organization_id
              project_id := project_id
              key_id := none
              outcome := .ACCEPTED
              reason := none
              timestamp := occurrence.detection_time
              event_id := outcome_event_id
              category := .USER_REPORT_V2
              quantity := 1 }]
        (.ok (), veff ++ sigEff ++ pubEff ++ aeff ++ prodMetric ++ outcomeEff)
    else (.error .publishError, veff ++ sigEff)

/-- Lines 204-276 of `create_feedback_issue`: everything after the
spam verdict is fixed — event-id defaulting, occurrence building,
issue-platform massaging, then `publishStage`. -/
def afterClassify (env : Env) (project : Project) (event : JVal) (project_id : Int)
    (source : FeedbackCreationSource) (is_message_spam : Option Bool) :
    Except PyErr Unit × List Effect :=
  match event with
  | .obj fs =>
    -- `event["event_id"] = event.get("event_id") or uuid4().hex`
    let supplied := JVal.getD fs "event_id" .null
    let eid := if supplied.truthy then supplied else JVal.str (env.uuid4hex 0)
    let used := if supplied.truthy then 0 else 1
    let fs1 := JVal.setKey fs "event_id" eid
    match JVal.lookupKey fs1 "timestamp" with
    | none => (.error .keyError, [])
    | some tsv =>
      match tsv with
      | .int detection_time =>
        match (do
          let c ← pyItem (JVal.obj fs1) "contexts"
          pyItem c "feedback" : Except PyErr JVal) with
        | .error e => (.error e, [])
        | .ok fbv =>
          match fbv with
          | .obj fbfs =>
            let (evidence_data, evidence_display) := make_evidence fbfs source is_message_spam
            let issue_fingerprint := [env.uuid4hex used]
            match JVal.lookupKey fbfs "message" with
            | none => (.error .keyError, [])
            | some msgv =>
              let occurrence : IssueOccurrence :=
                { id := env.uuid4hex (used + 1)
                  event_id := if eid.truthy then eid else JVal.str (env.uuid4hex (used + 2))
                  project_id := project_id
                  fingerprint := issue_fingerprint
                  issue_title := "User Feedback"
                  subtitle := msgv
                  resource_id := none
                  evidence_data := evidence_data
                  evidence_display := evidence_display
                  type := .FeedbackGroup
                  detection_time := detection_time
                  culprit := "user"
                  level := JVal.getD fs1 "level" (.str "info") }
              -- `{"project_id": ..., "received": ..., "tags": ..., **event}`
              let base := [("project_id", JVal.int project_id),
                           ("received", JVal.str env.nowIso),
                           ("tags", JVal.getD fs1 "tags" (JVal.obj []))]
              let event_data := JVal.obj
                (fs1.foldl (fun acc kv => JVal.setKey acc kv.1 kv.2) base)
              match fix_for_issue_platform event_data with
              | .error e => (.error e, [])
              | .ok (_mutated, event_fixed) =>
                publishStage env project project_id source is_message_spam
                  occurrence event_fixed (JVal.getD fs1 "event_id" .null)
                  (JVal.getD fbfs "source" .null)
          | _ => (.error .typeError, [])
      | _ => (.error .typeError, [])
  | _ => (.error .typeError, [])

/-- The entry counter incremented on every `create_feedback_issue` call. -/
def enteredMetric : Effect := .metricIncr "feedback.create_feedback_issue.entered" []

/-- `create_feedback_issue` from the source: entry counter, filter
stage (early return on rejection), spam classification, then the rest
of the pipeline. -/
def create_feedback_issue (env : Env) (event : JVal) (project_id : Int)
    (source : FeedbackCreationSource) : Except PyErr Unit × List Effect :=
  match should_filter_feedback event project_id source with
  | (.error e, feff) => (.error e, enteredMetric :: feff)
  | (.ok true, feff) => (.ok (), enteredMetric :: feff)
  | (.ok false, feff) =>
    let project := env.getProject project_id
    let (is_message_spam, ceff) := classifyStage env project event
    let (r, aeff) := afterClassify env project event project_id source is_message_spam
    (r, enteredMetric :: (feff ++ ceff ++ aeff))

end Sentry

namespace Sentry

/-- `sentry.utils.safe.get_path` (external helper): nested lookup that
returns `None` instead of raising when a step is missing or not a
dict. -/
def get_path (v : JVal) : List String → JVal
  | [] => v
  | k :: rest =>
    match v with
    | .obj fs =>
      match JVal.lookupKey fs k with
      | some x => get_path x rest
      | none => .null
    | _ => .null

/-- The slice of a Sentry `Event`/`GroupEvent` (external model objects)
that `shim_to_feedback` reads: its id, its `data` dict, the epoch value
of `event.datetime.timestamp()`, its platform, the name of
`event.get_environment()` and its tag pairs. -/
structure ShimEvent where
  event_id : String
  data : JVal
  datetimeTs : Int
  platform : JVal
  environmentName : String
  tags : List (JVal × JVal)

/-- Lines 316-349 of the source: the construction of the synthesized
feedback event inside `shim_to_feedback`'s `try`, including the
missing-event counter of the no-correlated-event branch.  Errors are
the exceptions the construction can raise (they are caught by the
caller). -/
def shimBuildEvent (report : JVal) (event : Option ShimEvent) (env : Env) :
    Except PyErr JVal × List Effect :=
  match report with
  | .obj rfs =>
    match JVal.lookupKey rfs "email", JVal.lookupKey rfs "comments" with
    | some email, some comments =>
      let fb0 : List (String × JVal) :=
        [("name", JVal.getD rfs "name" (.str "")),
         ("contact_email", email),
         ("message", comments)]
      match event with
      | some ev =>
        let fb1 := JVal.setKey fb0 "associated_event_id" (.str ev.event_id)
        let rid := get_path ev.data ["contexts", "replay", "replay_id"]
        match (if rid.truthy then (do
            let c ← pyItem ev.data "contexts"
            let r ← pyItem c "replay"
            let ridv ← pyItem r "replay_id"
            pure (some (r, ridv))) else pure none :
            Except PyErr (Option (JVal × JVal))) with
        | .error e => (.error e, [])
        | .ok replayPart =>
          let fb2 := match replayPart with
            | some (_, ridv) => JVal.setKey fb1 "replay_id" ridv
            | none => fb1
          let ctxFs := [("feedback", JVal.obj fb2)] ++
            (match replayPart with
             | some (r, _) => [("replay", r)]
             | none => [])
          match pyItem ev.data "level" with
          | .error e => (.error e, [])
          | .ok lvl =>
            (.ok (JVal.obj
              [("contexts", JVal.obj ctxFs),
               ("timestamp", JVal.int ev.datetimeTs),
               ("level", lvl),
               ("platform", ev.platform),
               ("environment", JVal.str ev.environmentName),
               ("tags", JVal.arr (ev.tags.map (fun kv => JVal.arr [kv.1, kv.2])))]),
             [])
      | none =>
        let eff := [Effect.metricIncr "feedback.user_report.missing_event" []]
        let fb1 :=
          if (JVal.getD rfs "event_id" .null).truthy then
            JVal.setKey fb0 "associated_event_id" (JVal.getD rfs "event_id" .null)
          else fb0
        (.ok (JVal.obj
          [("contexts", JVal.obj [("feedback", JVal.obj fb1)]),
           ("timestamp", JVal.int env.utcnowTs),
           ("platform", JVal.str "other"),
           ("level", JVal.getD rfs "level" (.str "info"))]),
         eff)
    | _, _ => (.error .keyError, [])
  | _ => (.error .typeError, [])

/-- The message logged by `shim_to_feedback`'s catch-all handler. -/
def shimLogMsg : String :=
  "Error attempting to create new User Feedback from Shiming old User Report"

/-- `shim_to_feedback` from the source.  The whole body sits inside
`try/except Exception`, so the function never raises: its result type
is just the trace, with the catch-all logging call appearing whenever
the construction or `create_feedback_issue` raised. -/
def shim_to_feedback (report : JVal) (event : Option ShimEvent) (project : Project)
    (source : FeedbackCreationSource) (env : Env) : List Effect :=
  match shimBuildEvent report event env with
  | (.error _, beff) => beff ++ [.logException shimLogMsg]
  | (.ok fe, beff) =>
    let (r, ceff) := create_feedback_issue env fe project.id source
    match r with
    | .ok _ => beff ++ ceff
    | .error _ => beff ++ ceff ++ [.logException shimLogMsg]

/-! ### Trace observation helpers -/

/-- Is this effect a classifier invocation? -/
def isClassifyEff : Effect → Bool
  | .classify _ => true
  | _ => false

/-- Is this effect a first-seen signal dispatch? -/
def isSignalEff : Effect → Bool
  | .signalFirstFeedback _ => true
  | .signalFirstNewFeedback _ => true
  | _ => false

/-- Is this effect the occurrence publish? -/
def isProduceOccurrenceEff : Effect → Bool
  | .produceOccurrence _ _ => true
  | _ => false

/-- Is this effect the status-change publish? -/
def isStatusChangeEff : Effect → Bool
  | .produceStatusChange _ => true
  | _ => false

/-- Is this effect an outcome record? -/
def isOutcomeEff : Effect → Bool
  | .trackOutcome _ => true
  | _ => false

/-- Is this effect an increment of the metric named `n`? -/
def isMetricNamed (n : String) : Effect → Bool
  | .metricIncr m _ => m == n
  | _ => false

/-- The occurrences published in a trace, in order. -/
def occurrencesOf (t : List Effect) : List IssueOccurrence :=
  t.filterMap fun e => match e with
    | .produceOccurrence o _ => some o
    | _ => none

/-- The issue-platform event payloads published alongside occurrences. -/
def publishedEventsOf (t : List Effect) : List JVal :=
  t.filterMap fun e => match e with
    | .produceOccurrence _ d => some d
    | _ => none

/-- The status-change records published in a trace, in order. -/
def statusChangesOf (t : List Effect) : List StatusChangeMessage :=
  t.filterMap fun e => match e with
    | .produceStatusChange s => some s
    | _ => none

/-- The outcome records written in a trace, in order. -/
def outcomesOf (t : List Effect) : List OutcomeRecord :=
  t.filterMap fun e => match e with
    | .trackOutcome o => some o
    | _ => none

/-- A coarse label for each effect, used to state ordering claims. -/
def effKind : Effect → String
  | .metricIncr _ _ => "metric"
  | .logException _ => "log"
  | .classify _ => "classify"
  | .validateCall _ _ => "validate"
  | .signalFirstFeedback _ => "first_feedback_signal"
  | .signalFirstNewFeedback _ => "first_new_feedback_signal"
  | .produceOccurrence _ _ => "publish_occurrence"
  | .produceStatusChange _ => "publish_status_change"
  | .trackOutcome _ => "outcome"

end Sentry

namespace Sentry

namespace JVal

/-- A field list with no duplicate keys — the invariant every real
Python dict satisfies. -/
def NoDupKeys (fs : List (String × JVal)) : Prop :=
  (fs.map Prod.fst).Nodup

theorem lookupKey_eq_none_iff (fs : List (String × JVal)) (k : String) :
    lookupKey fs k = none ↔ k ∉ fs.map Prod.fst := by
  induction fs with
  | nil => simp [lookupKey]
  | cons p rest ih =>
    by_cases h : p.1 = k
    · simp [lookupKey, h]
    · simp [lookupKey, h, ih, Ne.symm h]

theorem lookupKey_append_some {a : List (String × JVal)} {k : String} {v : JVal}
    (b : List (String × JVal)) (h : lookupKey a k = some v) :
    lookupKey (a ++ b) k = some v := by
  induction a with
  | nil => simp [lookupKey] at h
  | cons p rest ih =>
    by_cases hp : p.1 = k
    · simp [lookupKey, hp] at h ⊢; exact h
    · simp [lookupKey, hp] at h ⊢; exact ih h

theorem lookupKey_append_none {a : List (String × JVal)} {k : String}
    (b : List (String × JVal)) (h : lookupKey a k = none) :
    lookupKey (a ++ b) k = lookupKey b k := by
  induction a with
  | nil => simp [lookupKey]
  | cons p rest ih =>
    by_cases hp : p.1 = k
    · simp [lookupKey, hp] at h
    · simp [lookupKey, hp] at h ⊢; exact ih h

theorem lookupKey_setKey_self (fs : List (String × JVal)) (k : String) (v : JVal) :
    lookupKey (setKey fs k v) k = some v := by
  induction fs with
  | nil => simp [setKey, lookupKey]
  | cons p rest ih =>
    by_cases hp : p.1 = k
    · simp [setKey, hp, lookupKey]
    · simp [setKey, hp, lookupKey, ih]

theorem lookupKey_setKey_ne (fs : List (String × JVal)) {k k' : String} (v : JVal)
    (h : k' ≠ k) : lookupKey (setKey fs k v) k' = lookupKey fs k' := by
  induction fs with
  | nil => simp [setKey, lookupKey, Ne.symm h]
  | cons p rest ih =>
    by_cases hp : p.1 = k
    · simp [setKey, hp, lookupKey, Ne.symm h]
    · by_cases hp' : p.1 = k'
      · simp [setKey, hp, lookupKey, hp', h]
      · simp [setKey, hp, lookupKey, hp', ih]

theorem keys_setKey_of_mem (fs : List (String × JVal)) (k : String) (v : JVal)
    (h : k ∈ fs.map Prod.fst) :
    (setKey fs k v).map Prod.fst = fs.map Prod.fst := by
  induction fs with
  | nil => simp at h
  | cons p rest ih =>
    by_cases hp : p.1 = k
    · simp [setKey, hp]
    · rw [List.map_cons, List.mem_cons] at h
      rcases h with h1 | h1
      · exact absurd h1.symm hp
      · simp [setKey, hp, ih h1]

theorem keys_setKey_of_not_mem (fs : List (String × JVal)) (k : String) (v : JVal)
    (h : k ∉ fs.map Prod.fst) :
    (setKey fs k v).map Prod.fst = fs.map Prod.fst ++ [k] := by
  induction fs with
  | nil => simp [setKey]
  | cons p rest ih =>
    rw [List.map_cons, List.mem_cons, not_or] at h
    have hp : ¬ p.1 = k := fun hh => h.1 hh.symm
    simp [setKey, hp, ih h.2]

theorem nodupKeys_setKey (fs : List (String × JVal)) (k : String) (v : JVal)
    (h : NoDupKeys fs) : NoDupKeys (setKey fs k v) := by
  unfold NoDupKeys at *
  by_cases hm : k ∈ fs.map Prod.fst
  · rw [keys_setKey_of_mem fs k v hm]; exact h
  · rw [keys_setKey_of_not_mem fs k v hm, List.nodup_append]
    exact ⟨h, List.nodup_singleton k, fun a ha hb => hm ((List.mem_singleton.mp hb) ▸ ha)⟩

theorem lookupKey_reverse (fs : List (String × JVal)) (k : String)
    (h : NoDupKeys fs) : lookupKey fs.reverse k = lookupKey fs k := by
  induction fs with
  | nil => rfl
  | cons p rest ih =>
    unfold NoDupKeys at h
    simp only [List.map_cons, List.nodup_cons] at h
    by_cases hp : p.1 = k
    · have hnone : lookupKey rest.reverse k = none := by
        rw [lookupKey_eq_none_iff, List.map_reverse, List.mem_reverse]
        intro hm
        exact h.1 (by rw [hp]; exact hm)
      simp only [List.reverse_cons]
      rw [lookupKey_append_none _ hnone]
      simp [lookupKey, hp]
    · simp only [List.reverse_cons]
      cases hr : lookupKey rest k with
      | none =>
        rw [lookupKey_append_none _ (by rw [ih h.2, hr])]
        simp [lookupKey, hp, hr]
      | some v =>
        rw [lookupKey_append_some _ (by rw [ih h.2, hr])]
        simp [lookupKey, hp, hr]

end JVal

end Sentry

namespace Sentry

namespace JVal

theorem lookupKey_reverse_eq_none (fs : List (String × JVal)) (k : String) :
    lookupKey fs.reverse k = none ↔ lookupKey fs k = none := by
  rw [lookupKey_eq_none_iff, lookupKey_eq_none_iff, List.map_reverse, List.mem_reverse]

theorem lookupKey_foldl_setKey_none (fs : List (String × JVal))
    (acc : List (String × JVal)) (k : String) (h : lookupKey fs k = none) :
    lookupKey (fs.foldl (fun a kv => setKey a kv.1 kv.2) acc) k = lookupKey acc k := by
  induction fs generalizing acc with
  | nil => rfl
  | cons p rest ih =>
    by_cases hp : p.1 = k
    · simp [lookupKey, hp] at h
    · simp only [lookupKey, if_neg hp] at h
      rw [List.foldl_cons, ih _ h, lookupKey_setKey_ne _ _ (fun hh => hp hh.symm)]

theorem lookupKey_foldl_setKey_some (fs : List (String × JVal))
    (acc : List (String × JVal)) (k : String) (v : JVal)
    (h : lookupKey fs.reverse k = some v) :
    lookupKey (fs.foldl (fun a kv => setKey a kv.1 kv.2) acc) k = some v := by
  induction fs generalizing acc with
  | nil => simp [lookupKey] at h
  | cons p rest ih =>
    rw [List.reverse_cons] at h
    cases hr : lookupKey rest.reverse k with
    | some w =>
      rw [lookupKey_append_some _ hr] at h
      rw [List.foldl_cons]
      exact ih _ (by rw [hr, h])
    | none =>
      rw [lookupKey_append_none _ hr] at h
      have hrest : lookupKey rest k = none := (lookupKey_reverse_eq_none rest k).mp hr
      rw [List.foldl_cons, lookupKey_foldl_setKey_none _ _ _ hrest]
      by_cases hp : p.1 = k
      · subst hp
        rw [lookupKey_setKey_self]
        simpa [lookupKey] using h
      · simp [lookupKey, hp] at h

theorem lookupKey_foldl_setKey_of_nodup (fs : List (String × JVal))
    (acc : List (String × JVal)) (k : String) (v : JVal) (hn : NoDupKeys fs)
    (h : lookupKey fs k = some v) :
    lookupKey (fs.foldl (fun a kv => setKey a kv.1 kv.2) acc) k = some v :=
  lookupKey_foldl_setKey_some fs acc k v (by rw [lookupKey_reverse fs k hn, h])

theorem lookupKey_delKey_ne (fs : List (String × JVal)) {k k' : String}
    (h : k' ≠ k) : lookupKey (delKey fs k) k' = lookupKey fs k' := by
  induction fs with
  | nil => rfl
  | cons p rest ih =>
    by_cases hp : p.1 = k
    · simp [delKey, hp, lookupKey, Ne.symm h]
    · by_cases hp' : p.1 = k'
      · simp [delKey, hp, lookupKey, hp', h]
      · simp [delKey, hp, lookupKey, hp', ih]

theorem lookupKey_delKey_self (fs : List (String × JVal)) (k : String)
    (h : NoDupKeys fs) : lookupKey (delKey fs k) k = none := by
  induction fs with
  | nil => rfl
  | cons p rest ih =>
    unfold NoDupKeys at h
    simp only [List.map_cons, List.nodup_cons] at h
    by_cases hp : p.1 = k
    · simp only [delKey, if_pos hp]
      rw [lookupKey_eq_none_iff]
      intro hm
      exact h.1 (by rw [hp]; exact hm)
    · simp [delKey, hp, lookupKey, ih h.2]

theorem keys_delKey_sublist (fs : List (String × JVal)) (k : String) :
    ((delKey fs k).map Prod.fst).Sublist (fs.map Prod.fst) := by
  induction fs with
  | nil => simp [delKey]
  | cons p rest ih =>
    by_cases hp : p.1 = k
    · simp only [delKey, if_pos hp, List.map_cons]
      exact (List.sublist_cons_self _ _)
    · simp only [delKey, if_neg hp, List.map_cons]
      exact ih.cons₂ p.1

theorem nodupKeys_delKey (fs : List (String × JVal)) (k : String)
    (h : NoDupKeys fs) : NoDupKeys (delKey fs k) :=
  (keys_delKey_sublist fs k).nodup h

end JVal

end Sentry

namespace Sentry

/-! ### Sample data used by witness instantiations -/

/-- A concrete project with every optional capability switched off. -/
def sampleProject : Project :=
  { id := 7
    organization_id := 42
    orgFeatureSpamFilterIngest := false
    orgFeatureSpamFilterActions := false
    optionFeedbackAiSpamDetection := false
    flagHasFeedbacks := true
    flagHasNewFeedbacks := true }

/-- A concrete project with spam filtering and actions enabled and no
first-feedback latch set. -/
def spamProject : Project :=
  { id := 7
    organization_id := 42
    orgFeatureSpamFilterIngest := true
    orgFeatureSpamFilterActions := true
    optionFeedbackAiSpamDetection := true
    flagHasFeedbacks := false
    flagHasNewFeedbacks := false }

/-- A concrete environment in which every external call succeeds. -/
def sampleEnv : Env :=
  { getProject := fun _ => sampleProject
    isSpamResult := fun _ => .ok false
    uuid4hex := fun n => "uuid" ++ toString n
    nowIso := "2023-11-14T22:30:00"
    utcnowTs := 1700000999
    schemaOkCurrent := fun _ => true
    schemaOkLegacy := fun _ => false
    occurrencePublishOk := true
    statusChangePublishOk := true }

/-- A concrete feedback event matching the spec's walkthrough scenario. -/
def sampleEventFields : List (String × JVal) :=
  [("contexts", .obj [("feedback", .obj
      [("message", .str "Great app!"), ("contact_email", .str "a@b.com")])]),
   ("timestamp", .int 1700000000),
   ("received", .str "2023-11-14T22:13:20Z"),
   ("event_id", .str "abc123"),
   ("project_id", .int 7)]

/-! ### C2 — evidence ordering -/

/-- **C2.** For every feedback context, source tag and spam verdict
(`True`, `False` or `None`), `make_evidence` lists the
`evidence_display` entries in exactly the fixed order
associated_event_id, contact_email, message, name, source, is_spam;
an entry appears exactly when its value is present (truthy for the
four context fields, always for `source`, a `True` verdict for
`is_spam`) and absent ones are omitted. -/
theorem C2_make_evidence_display_order (feedback : List (String × JVal))
    (source : FeedbackCreationSource) (is_message_spam : Option Bool) :
    (make_evidence feedback source is_message_spam).2.map IssueEvidence.name =
      (if (JVal.getD feedback "associated_event_id" .null).truthy then
        ["associated_event_id"] else []) ++
      (if (JVal.getD feedback "contact_email" .null).truthy then
        ["contact_email"] else []) ++
      (if (JVal.getD feedback "message" .null).truthy then ["message"] else []) ++
      (if (JVal.getD feedback "name" .null).truthy then ["name"] else []) ++
      ["source"] ++
      (if is_message_spam = some true then ["is_spam"] else []) := by
  unfold make_evidence
  split_ifs <;> simp_all

/-! ### C1 — filter-stage rejection order -/

/-- The observable outcome the filter stage produces when it rejects
with counter reason `reason`: `should_filter_feedback` returns `True`
having incremented exactly the tagged filtered counter, and
`create_feedback_issue` returns `None` with a trace holding only the
entry counter and that same increment — no occurrence, no publish, no
outcome. -/
def rejectedWith (env : Env) (project_id : Int) (source : FeedbackCreationSource)
    (fs : List (String × JVal)) (reason : String) : Prop :=
  should_filter_feedback (.obj fs) project_id source =
    (.ok true, [.metricIncr filteredMetric [("reason", .str reason)]]) ∧
  create_feedback_issue env (.obj fs) project_id source =
    (.ok (), [enteredMetric, .metricIncr filteredMetric [("reason", .str reason)]])

/-- **C1.** The filter stage rejects in the fixed order with the fixed
reasons: absent `contexts`/`contexts.feedback`/`contexts.feedback.message`
gives "missing_context"; otherwise a message equal to the unattended
sentinel gives "unreal.unattended"; otherwise a message that is empty
after stripping gives "empty"; and on every rejection
`create_feedback_issue` returns having produced no occurrence, publish
or outcome (its whole trace is the entry counter plus the one filtered
counter). -/
theorem C1_filter_rejections (env : Env) (project_id : Int)
    (source : FeedbackCreationSource) (fs : List (String × JVal)) :
    (JVal.getD fs "contexts" .null = .null →
      rejectedWith env project_id source fs "missing_context") ∧
    (∀ cfs, JVal.getD fs "contexts" .null = .obj cfs →
      JVal.getD cfs "feedback" .null = .null →
      rejectedWith env project_id source fs "missing_context") ∧
    (∀ cfs ffs, JVal.getD fs "contexts" .null = .obj cfs →
      JVal.getD cfs "feedback" .null = .obj ffs →
      JVal.getD ffs "message" .null = .null →
      rejectedWith env project_id source fs "missing_context") ∧
    (∀ cfs ffs, JVal.getD fs "contexts" .null = .obj cfs →
      JVal.getD cfs "feedback" .null = .obj ffs →
      JVal.getD ffs "message" .null = .str UNREAL_FEEDBACK_UNATTENDED_MESSAGE →
      rejectedWith env project_id source fs "unreal.unattended") ∧
    (∀ cfs ffs s, JVal.getD fs "contexts" .null = .obj cfs →
      JVal.getD cfs "feedback" .null = .obj ffs →
      JVal.getD ffs "message" .null = .str s →
      s ≠ UNREAL_FEEDBACK_UNATTENDED_MESSAGE → pyStrip s = "" →
      rejectedWith env project_id source fs "empty") := by
  refine ⟨?_, ?_, ?_, ?_, ?_⟩
  · intro h
    have hf : should_filter_feedback (.obj fs) project_id source =
        (.ok true, [.metricIncr filteredMetric [("reason", .str "missing_context")]]) := by
      simp [should_filter_feedback, pyGet, pyGetD, h, JVal.isNone]
    exact ⟨hf, by simp [create_feedback_issue, hf]⟩
  · intro cfs hc h
    have hf : should_filter_feedback (.obj fs) project_id source =
        (.ok true, [.metricIncr filteredMetric [("reason", .str "missing_context")]]) := by
      simp [should_filter_feedback, pyGet, pyGetD, hc, h, JVal.isNone]
    exact ⟨hf, by simp [create_feedback_issue, hf]⟩
  · intro cfs ffs hc hfb h
    have hf : should_filter_feedback (.obj fs) project_id source =
        (.ok true, [.metricIncr filteredMetric [("reason", .str "missing_context")]]) := by
      simp [should_filter_feedback, pyGet, pyGetD, hc, hfb, h, JVal.isNone]
    exact ⟨hf, by simp [create_feedback_issue, hf]⟩
  · intro cfs ffs hc hfb h
    have hf : should_filter_feedback (.obj fs) project_id source =
        (.ok true, [.metricIncr filteredMetric [("reason", .str "unreal.unattended")]]) := by
      simp [should_filter_feedback, pyGet, pyGetD, hc, hfb, h, JVal.isNone]
    exact ⟨hf, by simp [create_feedback_issue, hf]⟩
  · intro cfs ffs s hc hfb h hne hstrip
    have hf : should_filter_feedback (.obj fs) project_id source =
        (.ok true, [.metricIncr filteredMetric [("reason", .str "empty")]]) := by
      simp [should_filter_feedback, pyGet, pyGetD, hc, hfb, h, JVal.isNone, hne, hstrip]
    exact ⟨hf, by simp [create_feedback_issue, hf]⟩

/-- Witness for C1: concrete rejections on each of the three reason
paths (no contexts at all; the unattended sentinel; a whitespace-only
message). -/
theorem C1_filter_rejections_witness :
    rejectedWith sampleEnv 7 .NEW_FEEDBACK_ENVELOPE [] "missing_context" ∧
    rejectedWith sampleEnv 7 .NEW_FEEDBACK_ENVELOPE
      [("contexts", .obj [("feedback", .obj
        [("message", .str "Sent in the unattended mode")])])] "unreal.unattended" ∧
    rejectedWith sampleEnv 7 .NEW_FEEDBACK_ENVELOPE
      [("contexts", .obj [("feedback", .obj [("message", .str "  ")])])] "empty" :=
  ⟨(C1_filter_rejections sampleEnv 7 .NEW_FEEDBACK_ENVELOPE []).1 rfl,
   (C1_filter_rejections sampleEnv 7 .NEW_FEEDBACK_ENVELOPE _).2.2.2.1
     [("feedback", .obj [("message", .str "Sent in the unattended mode")])]
     [("message", .str "Sent in the unattended mode")] rfl rfl rfl,
   (C1_filter_rejections sampleEnv 7 .NEW_FEEDBACK_ENVELOPE _).2.2.2.2
     [("feedback", .obj [("message", .str "  ")])]
     [("message", .str "  ")] "  " rfl rfl rfl (by decide) (by decide)⟩

end Sentry

namespace Sentry

namespace JVal

theorem getD_setKey_self (fs : List (String × JVal)) (k : String) (v d : JVal) :
    getD (setKey fs k v) k d = v := by
  unfold getD
  rw [lookupKey_setKey_self]
  rfl

theorem getD_setKey_ne (fs : List (String × JVal)) {k k' : String} (v d : JVal)
    (h : k' ≠ k) : getD (setKey fs k v) k' d = getD fs k' d := by
  unfold getD
  rw [lookupKey_setKey_ne _ _ h]

end JVal

/-- The replay synthesis succeeds on a dict contexts value whose
feedback entry is a dict, and leaves the feedback entry untouched. -/
theorem fixReplaySynth_ok (cfs ffs : List (String × JVal))
    (hfb : JVal.lookupKey cfs "feedback" = some (.obj ffs)) :
    ∃ c, fixReplaySynth (.obj cfs) = .ok (.obj c) ∧
      JVal.lookupKey c "feedback" = some (.obj ffs) := by
  unfold fixReplaySynth
  simp only [JVal.getD, hfb, Option.getD]
  split
  · exact ⟨cfs, rfl, hfb⟩
  · split
    · exact ⟨JVal.setKey cfs "replay" _, rfl,
        by rw [JVal.lookupKey_setKey_ne _ _ (by decide)]; exact hfb⟩
    · exact ⟨cfs, rfl, hfb⟩

set_option maxHeartbeats 1000000 in
/-- `fix_for_issue_platform` succeeds on any dict having the five
required keys (numeric timestamp, `received`, `project_id`, a dict
contexts with a dict feedback, `event_id`) and a user value that is
absent or a dict. -/
theorem fix_ok (gs : List (String × JVal)) (ts : Int) (rv pv ev : JVal)
    (cfs ffs : List (String × JVal))
    (hts : JVal.lookupKey gs "timestamp" = some (.int ts))
    (hrv : JVal.lookupKey gs "received" = some rv)
    (hpv : JVal.lookupKey gs "project_id" = some pv)
    (hctx : JVal.lookupKey gs "contexts" = some (.obj cfs))
    (hfb : JVal.lookupKey cfs "feedback" = some (.obj ffs))
    (hev : JVal.lookupKey gs "event_id" = some ev)
    (huser : JVal.lookupKey gs "user" = none ∨
      ∃ ufs, JVal.lookupKey gs "user" = some (.obj ufs)) :
    ∃ m rfs, fix_for_issue_platform (.obj gs) = .ok (m, .obj rfs) ∧
      JVal.lookupKey rfs "event_id" = some ev := by
  obtain ⟨c, hc, hcfb⟩ := fixReplaySynth_ok cfs ffs hfb
  unfold fix_for_issue_platform
  rcases huser with h | ⟨ufs, h⟩ <;>
    simp only [reqKey, hts, hrv, hpv, hctx, hev, fromtimestampIso, h, hc,
      bind, Except.bind, pure, Except.pure, JVal.getD, Option.getD,
      fixUserMutations, fixEmailBackfill, pyGet, pyGetD, hcfb,
      Option.isSome_none, Option.isSome_some, Bool.false_eq_true,
      Bool.true_eq_false, if_false, if_true, ite_true, ite_false] <;>
    split <;>
    exact ⟨_, _, rfl, rfl⟩

end Sentry

namespace Sentry

set_option maxHeartbeats 1000000 in
theorem afterClassify_build_with_eid (env : Env) (project : Project) (project_id : Int)
    (source : FeedbackCreationSource) (spam : Option Bool)
    (fs cfs ffs : List (String × JVal)) (ts : Int) (msgv eidv : JVal)
    (hn : JVal.NoDupKeys fs)
    (hctx : JVal.lookupKey fs "contexts" = some (.obj cfs))
    (hfb : JVal.lookupKey cfs "feedback" = some (.obj ffs))
    (hmsg : JVal.lookupKey ffs "message" = some msgv)
    (hts : JVal.lookupKey fs "timestamp" = some (.int ts))
    (heid : JVal.getD fs "event_id" .null = eidv)
    (hsup : eidv.truthy = true)
    (huser : JVal.lookupKey fs "user" = none ∨
      ∃ ufs, JVal.lookupKey fs "user" = some (.obj ufs)) :
    ∃ efs,
      afterClassify env project (.obj fs) project_id source spam =
        publishStage env project project_id source spam
          { id := env.uuid4hex 1
            event_id := eidv
            project_id := project_id
            fingerprint := [env.uuid4hex 0]
            issue_title := "User Feedback"
            subtitle := msgv
            resource_id := none
            evidence_data := (make_evidence ffs source spam).1
            evidence_display := (make_evidence ffs source spam).2
            type := .FeedbackGroup
            detection_time := ts
            culprit := "user"
            level := JVal.getD fs "level" (.str "info") }
          (.obj efs) eidv (JVal.getD ffs "source" .null) ∧
      JVal.lookupKey efs "event_id" = some eidv := by
  have hts1 : JVal.lookupKey (JVal.setKey fs "event_id" eidv) "timestamp" =
      some (.int ts) := by
    rw [JVal.lookupKey_setKey_ne _ _ (by decide)]; exact hts
  have hctx1 : JVal.lookupKey (JVal.setKey fs "event_id" eidv) "contexts" =
      some (.obj cfs) := by
    rw [JVal.lookupKey_setKey_ne _ _ (by decide)]; exact hctx
  have hn1 : JVal.NoDupKeys (JVal.setKey fs "event_id" eidv) :=
    JVal.nodupKeys_setKey _ _ _ hn
  have hg_ts : JVal.lookupKey
      ((JVal.setKey fs "event_id" eidv).foldl (fun acc kv => JVal.setKey acc kv.1 kv.2)
        [("project_id", JVal.int project_id), ("received", JVal.str env.nowIso),
         ("tags", JVal.getD (JVal.setKey fs "event_id" eidv) "tags" (JVal.obj []))])
      "timestamp" = some (.int ts) :=
    JVal.lookupKey_foldl_setKey_of_nodup _ _ _ _ hn1 hts1
  have hg_ctx : JVal.lookupKey
      ((JVal.setKey fs "event_id" eidv).foldl (fun acc kv => JVal.setKey acc kv.1 kv.2)
        [("project_id", JVal.int project_id), ("received", JVal.str env.nowIso),
         ("tags", JVal.getD (JVal.setKey fs "event_id" eidv) "tags" (JVal.obj []))])
      "contexts" = some (.obj cfs) :=
    JVal.lookupKey_foldl_setKey_of_nodup _ _ _ _ hn1 hctx1
  have hg_eid : JVal.lookupKey
      ((JVal.setKey fs "event_id" eidv).foldl (fun acc kv => JVal.setKey acc kv.1 kv.2)
        [("project_id", JVal.int project_id), ("received", JVal.str env.nowIso),
         ("tags", JVal.getD (JVal.setKey fs "event_id" eidv) "tags" (JVal.obj []))])
      "event_id" = some eidv :=
    JVal.lookupKey_foldl_setKey_of_nodup _ _ _ _ hn1 (JVal.lookupKey_setKey_self _ _ _)
  have hg_rv : ∃ rv, JVal.lookupKey
      ((JVal.setKey fs "event_id" eidv).foldl (fun acc kv => JVal.setKey acc kv.1 kv.2)
        [("project_id", JVal.int project_id), ("received", JVal.str env.nowIso),
         ("tags", JVal.getD (JVal.setKey fs "event_id" eidv) "tags" (JVal.obj []))])
      "received" = some rv := by
    cases hr : JVal.lookupKey (JVal.setKey fs "event_id" eidv) "received" with
    | some v => exact ⟨v, JVal.lookupKey_foldl_setKey_of_nodup _ _ _ _ hn1 hr⟩
    | none =>
      refine ⟨.str env.nowIso, ?_⟩
      rw [JVal.lookupKey_foldl_setKey_none _ _ _ hr]
      rfl
  have hg_pv : ∃ pv, JVal.lookupKey
      ((JVal.setKey fs "event_id" eidv).foldl (fun acc kv => JVal.setKey acc kv.1 kv.2)
        [("project_id", JVal.int project_id), ("received", JVal.str env.nowIso),
         ("tags", JVal.getD (JVal.setKey fs "event_id" eidv) "tags" (JVal.obj []))])
      "project_id" = some pv := by
    cases hr : JVal.lookupKey (JVal.setKey fs "event_id" eidv) "project_id" with
    | some v => exact ⟨v, JVal.lookupKey_foldl_setKey_of_nodup _ _ _ _ hn1 hr⟩
    | none =>
      refine ⟨.int project_id, ?_⟩
      rw [JVal.lookupKey_foldl_setKey_none _ _ _ hr]
      rfl
  have hg_user : JVal.lookupKey
      ((JVal.setKey fs "event_id" eidv).foldl (fun acc kv => JVal.setKey acc kv.1 kv.2)
        [("project_id", JVal.int project_id), ("received", JVal.str env.nowIso),
         ("tags", JVal.getD (JVal.setKey fs "event_id" eidv) "tags" (JVal.obj []))])
      "user" = none ∨ ∃ ufs, JVal.lookupKey
      ((JVal.setKey fs "event_id" eidv).foldl (fun acc kv => JVal.setKey acc kv.1 kv.2)
        [("project_id", JVal.int project_id), ("received", JVal.str env.nowIso),
         ("tags", JVal.getD (JVal.setKey fs "event_id" eidv) "tags" (JVal.obj []))])
      "user" = some (.obj ufs) := by
    rcases huser with h | ⟨ufs, h⟩
    · left
      have h1 : JVal.lookupKey (JVal.setKey fs "event_id" eidv) "user" = none := by
        rw [JVal.lookupKey_setKey_ne _ _ (by decide)]; exact h
      rw [JVal.lookupKey_foldl_setKey_none _ _ _ h1]
      rfl
    · right
      refine ⟨ufs, JVal.lookupKey_foldl_setKey_of_nodup _ _ _ _ hn1 ?_⟩
      rw [JVal.lookupKey_setKey_ne _ _ (by decide)]; exact h
  obtain ⟨rv, hg_rv⟩ := hg_rv
  obtain ⟨pv, hg_pv⟩ := hg_pv
  obtain ⟨m, rfs, hfix, hret⟩ := fix_ok _ ts rv pv eidv cfs ffs hg_ts hg_rv hg_pv
    hg_ctx hfb hg_eid hg_user
  refine ⟨rfs, ?_, hret⟩
  unfold afterClassify
  simp only [heid, hsup, if_true, ite_true, hts1, pyItem, bind, Except.bind, hctx1,
    hfb, hmsg, hfix, JVal.getD_setKey_self, JVal.getD_setKey_ne _ _ _ (by decide : ("level":String) ≠ "event_id"),
    Nat.zero_add]
end Sentry

namespace Sentry

set_option maxHeartbeats 1000000 in
theorem afterClassify_build_no_eid (env : Env) (project : Project) (project_id : Int)
    (source : FeedbackCreationSource) (spam : Option Bool)
    (fs cfs ffs : List (String × JVal)) (ts : Int) (msgv : JVal)
    (hn : JVal.NoDupKeys fs)
    (hctx : JVal.lookupKey fs "contexts" = some (.obj cfs))
    (hfb : JVal.lookupKey cfs "feedback" = some (.obj ffs))
    (hmsg : JVal.lookupKey ffs "message" = some msgv)
    (hts : JVal.lookupKey fs "timestamp" = some (.int ts))
    (hsup : (JVal.getD fs "event_id" .null).truthy = false)
    (huuid0 : env.uuid4hex 0 ≠ "")
    (huser : JVal.lookupKey fs "user" = none ∨
      ∃ ufs, JVal.lookupKey fs "user" = some (.obj ufs)) :
    ∃ efs,
      afterClassify env project (.obj fs) project_id source spam =
        publishStage env project project_id source spam
          { id := env.uuid4hex 2
            event_id := JVal.str (env.uuid4hex 0)
            project_id := project_id
            fingerprint := [env.uuid4hex 1]
            issue_title := "User Feedback"
            subtitle := msgv
            resource_id := none
            evidence_data := (make_evidence ffs source spam).1
            evidence_display := (make_evidence ffs source spam).2
            type := .FeedbackGroup
            detection_time := ts
            culprit := "user"
            level := JVal.getD fs "level" (.str "info") }
          (.obj efs) (JVal.str (env.uuid4hex 0)) (JVal.getD ffs "source" .null) ∧
      JVal.lookupKey efs "event_id" = some (JVal.str (env.uuid4hex 0)) := by
  have hts1 : JVal.lookupKey (JVal.setKey fs "event_id" (JVal.str (env.uuid4hex 0)))
      "timestamp" = some (.int ts) := by
    rw [JVal.lookupKey_setKey_ne _ _ (by decide)]; exact hts
  have hctx1 : JVal.lookupKey (JVal.setKey fs "event_id" (JVal.str (env.uuid4hex 0)))
      "contexts" = some (.obj cfs) := by
    rw [JVal.lookupKey_setKey_ne _ _ (by decide)]; exact hctx
  have hn1 : JVal.NoDupKeys (JVal.setKey fs "event_id" (JVal.str (env.uuid4hex 0))) :=
    JVal.nodupKeys_setKey _ _ _ hn
  have hg_ts : JVal.lookupKey
      ((JVal.setKey fs "event_id" (JVal.str (env.uuid4hex 0))).foldl
        (fun acc kv => JVal.setKey acc kv.1 kv.2)
        [("project_id", JVal.int project_id), ("received", JVal.str env.nowIso),
         ("tags", JVal.getD (JVal.setKey fs "event_id" (JVal.str (env.uuid4hex 0)))
           "tags" (JVal.obj []))])
      "timestamp" = some (.int ts) :=
    JVal.lookupKey_foldl_setKey_of_nodup _ _ _ _ hn1 hts1
  have hg_ctx : JVal.lookupKey
      ((JVal.setKey fs "event_id" (JVal.str (env.uuid4hex 0))).foldl
        (fun acc kv => JVal.setKey acc kv.1 kv.2)
        [("project_id", JVal.int project_id), ("received", JVal.str env.nowIso),
         ("tags", JVal.getD (JVal.setKey fs "event_id" (JVal.str (env.uuid4hex 0)))
           "tags" (JVal.obj []))])
      "contexts" = some (.obj cfs) :=
    JVal.lookupKey_foldl_setKey_of_nodup _ _ _ _ hn1 hctx1
  have hg_eid : JVal.lookupKey
      ((JVal.setKey fs "event_id" (JVal.str (env.uuid4hex 0))).foldl
        (fun acc kv => JVal.setKey acc kv.1 kv.2)
        [("project_id", JVal.int project_id), ("received", JVal.str env.nowIso),
         ("tags", JVal.getD (JVal.setKey fs "event_id" (JVal.str (env.uuid4hex 0)))
           "tags" (JVal.obj []))])
      "event_id" = some (JVal.str (env.uuid4hex 0)) :=
    JVal.lookupKey_foldl_setKey_of_nodup _ _ _ _ hn1 (JVal.lookupKey_setKey_self _ _ _)
  have hg_rv : ∃ rv, JVal.lookupKey
      ((JVal.setKey fs "event_id" (JVal.str (env.uuid4hex 0))).foldl
        (fun acc kv => JVal.setKey acc kv.1 kv.2)
        [("project_id", JVal.int project_id), ("received", JVal.str env.nowIso),
         ("tags", JVal.getD (JVal.setKey fs "event_id" (JVal.str (env.uuid4hex 0)))
           "tags" (JVal.obj []))])
      "received" = some rv := by
    cases hr : JVal.lookupKey (JVal.setKey fs "event_id" (JVal.str (env.uuid4hex 0)))
        "received" with
    | some v => exact ⟨v, JVal.lookupKey_foldl_setKey_of_nodup _ _ _ _ hn1 hr⟩
    | none =>
      refine ⟨.str env.nowIso, ?_⟩
      rw [JVal.lookupKey_foldl_setKey_none _ _ _ hr]
      rfl
  have hg_pv : ∃ pv, JVal.lookupKey
      ((JVal.setKey fs "event_id" (JVal.str (env.uuid4hex 0))).foldl
        (fun acc kv => JVal.setKey acc kv.1 kv.2)
        [("project_id", JVal.int project_id), ("received", JVal.str env.nowIso),
         ("tags", JVal.getD (JVal.setKey fs "event_id" (JVal.str (env.uuid4hex 0)))
           "tags" (JVal.obj []))])
      "project_id" = some pv := by
    cases hr : JVal.lookupKey (JVal.setKey fs "event_id" (JVal.str (env.uuid4hex 0)))
        "project_id" with
    | some v => exact ⟨v, JVal.lookupKey_foldl_setKey_of_nodup _ _ _ _ hn1 hr⟩
    | none =>
      refine ⟨.int project_id, ?_⟩
      rw [JVal.lookupKey_foldl_setKey_none _ _ _ hr]
      rfl
  have hg_user : JVal.lookupKey
      ((JVal.setKey fs "event_id" (JVal.str (env.uuid4hex 0))).foldl
        (fun acc kv => JVal.setKey acc kv.1 kv.2)
        [("project_id", JVal.int project_id), ("received", JVal.str env.nowIso),
         ("tags", JVal.getD (JVal.setKey fs "event_id" (JVal.str (env.uuid4hex 0)))
           "tags" (JVal.obj []))])
      "user" = none ∨ ∃ ufs, JVal.lookupKey
      ((JVal.setKey fs "event_id" (JVal.str (env.uuid4hex 0))).foldl
        (fun acc kv => JVal.setKey acc kv.1 kv.2)
        [("project_id", JVal.int project_id), ("received", JVal.str env.nowIso),
         ("tags", JVal.getD (JVal.setKey fs "event_id" (JVal.str (env.uuid4hex 0)))
           "tags" (JVal.obj []))])
      "user" = some (.obj ufs) := by
    rcases huser with h | ⟨ufs, h⟩
    · left
      have h1 : JVal.lookupKey (JVal.setKey fs "event_id" (JVal.str (env.uuid4hex 0)))
          "user" = none := by
        rw [JVal.lookupKey_setKey_ne _ _ (by decide)]; exact h
      rw [JVal.lookupKey_foldl_setKey_none _ _ _ h1]
      rfl
    · right
      refine ⟨ufs, JVal.lookupKey_foldl_setKey_of_nodup _ _ _ _ hn1 ?_⟩
      rw [JVal.lookupKey_setKey_ne _ _ (by decide)]; exact h
  obtain ⟨rv, hg_rv⟩ := hg_rv
  obtain ⟨pv, hg_pv⟩ := hg_pv
  obtain ⟨m, rfs, hfix, hret⟩ := fix_ok _ ts rv pv (JVal.str (env.uuid4hex 0)) cfs ffs
    hg_ts hg_rv hg_pv hg_ctx hfb hg_eid hg_user
  refine ⟨rfs, ?_, hret⟩
  have htr : (JVal.str (env.uuid4hex 0)).truthy = true := by
    simp [JVal.truthy, huuid0]
  unfold afterClassify
  simp only [hsup, Bool.false_eq_true, if_false, ite_false]
  simp only [hts1, pyItem, bind, Except.bind, hctx1, hfb, hmsg, hfix, htr,
    JVal.getD_setKey_self,
    JVal.getD_setKey_ne _ _ _ (by decide : ("level":String) ≠ "event_id"),
    if_true, ite_true]

theorem publishStage_ok (env : Env) (project : Project) (project_id : Int)
    (source : FeedbackCreationSource) (spam : Option Bool)
    (occ : IssueOccurrence) (ef oeid csrc : JVal)
    (hschema : env.schemaOkCurrent ef = true)
    (hpub : env.occurrencePublishOk = true)
    (hspub : env.statusChangePublishOk = true) :
    publishStage env project project_id source spam occ ef oeid csrc =
      (.ok (),
        [.validateCall ef false] ++
        (if !project.flagHasFeedbacks then
          [Effect.signalFirstFeedback project.id] else []) ++
        (if (source == .NEW_FEEDBACK_ENVELOPE ||
             source == .NEW_FEEDBACK_DJANGO_ENDPOINT) &&
            !project.flagHasNewFeedbacks then
          [Effect.signalFirstNewFeedback project.id] else []) ++
        [.produceOccurrence occ ef] ++
        (if spam = some true then
          (if project.orgFeatureSpamFilterActions then
            [Effect.metricIncr "feedback.spam-detection-actions.set-ignored" [],
             Effect.produceStatusChange
               { fingerprint := occ.fingerprint
                 project_id := project.id
                 new_status := .IGNORED
                 new_substatus := .FOREVER }]
          else []) else []) ++
        [.metricIncr "feedback.create_feedback_issue.produced_occurrence"
            [("referrer", JVal.str source.value), ("client_source", csrc)],
         .trackOutcome
           { org_id := project.organization_id
             project_id := project_id
             key_id := none
             outcome := .ACCEPTED
             reason := none
             timestamp := occ.detection_time
             event_id := oeid
             category := .USER_REPORT_V2
             quantity := 1 }]) := by
  unfold publishStage validate_issue_platform_event_schema auto_ignore_spam_feedbacks
  simp only [hschema, hpub, hspub, if_true, ite_true]
  by_cases hsp : spam = some true <;>
    by_cases hact : project.orgFeatureSpamFilterActions <;>
    simp [hsp, hact]

theorem publishStage_schema_fail (env : Env) (project : Project) (project_id : Int)
    (source : FeedbackCreationSource) (spam : Option Bool)
    (occ : IssueOccurrence) (ef oeid csrc : JVal)
    (hcur : env.schemaOkCurrent ef = false)
    (hleg : env.schemaOkLegacy ef = false) :
    publishStage env project project_id source spam occ ef oeid csrc =
      (.error .schemaError,
        [.validateCall ef false, .validateCall ef true,
         .metricIncr "feedback.create_feedback_issue.invalid_schema" []]) := by
  unfold publishStage validate_issue_platform_event_schema
  simp [hcur, hleg]

theorem publishStage_publish_fail (env : Env) (project : Project) (project_id : Int)
    (source : FeedbackCreationSource) (spam : Option Bool)
    (occ : IssueOccurrence) (ef oeid csrc : JVal)
    (hschema : env.schemaOkCurrent ef = true)
    (hpub : env.occurrencePublishOk = false) :
    publishStage env project project_id source spam occ ef oeid csrc =
      (.error .publishError,
        [.validateCall ef false] ++
        (if !project.flagHasFeedbacks then
          [Effect.signalFirstFeedback project.id] else []) ++
        (if (source == .NEW_FEEDBACK_ENVELOPE ||
             source == .NEW_FEEDBACK_DJANGO_ENDPOINT) &&
            !project.flagHasNewFeedbacks then
          [Effect.signalFirstNewFeedback project.id] else [])) := by
  unfold publishStage validate_issue_platform_event_schema
  simp [hschema, hpub]

end Sentry

namespace Sentry

/-- The filter accepts an event whose feedback message is a non-sentinel,
non-whitespace string. -/
theorem should_filter_accept (project_id : Int) (source : FeedbackCreationSource)
    (fs cfs ffs : List (String × JVal)) (s : String)
    (hctx : JVal.getD fs "contexts" .null = .obj cfs)
    (hfb : JVal.getD cfs "feedback" .null = .obj ffs)
    (hmsg : JVal.getD ffs "message" .null = .str s)
    (hne : s ≠ UNREAL_FEEDBACK_UNATTENDED_MESSAGE)
    (hstrip : pyStrip s ≠ "") :
    should_filter_feedback (.obj fs) project_id source = (.ok false, []) := by
  simp [should_filter_feedback, pyGet, pyGetD, hctx, hfb, hmsg, JVal.isNone, hne, hstrip]

/-- The classifier is skipped entirely when either gate is off. -/
theorem classifyStage_off (env : Env) (project : Project) (event : JVal)
    (h : (project.orgFeatureSpamFilterIngest &&
      project.optionFeedbackAiSpamDetection) = false) :
    classifyStage env project event = (none, []) := by
  simp [classifyStage, h]

/-- With both gates on and a well-shaped event, a classifier answer
becomes the verdict. -/
theorem classifyStage_on_ok (env : Env) (project : Project)
    (fs cfs ffs : List (String × JVal)) (msgv : JVal) (b : Bool)
    (hflags : (project.orgFeatureSpamFilterIngest &&
      project.optionFeedbackAiSpamDetection) = true)
    (hctx : JVal.lookupKey fs "contexts" = some (.obj cfs))
    (hfb : JVal.lookupKey cfs "feedback" = some (.obj ffs))
    (hmsg : JVal.lookupKey ffs "message" = some msgv)
    (hres : env.isSpamResult msgv = .ok b) :
    classifyStage env project (.obj fs) = (some b, [.classify msgv]) := by
  simp [classifyStage, hflags, pyItem, hctx, hfb, hmsg, bind, Except.bind, hres]

/-- With both gates on, a classifier exception is swallowed: the
verdict is `None` and the failure is logged. -/
theorem classifyStage_on_err (env : Env) (project : Project)
    (fs cfs ffs : List (String × JVal)) (msgv : JVal)
    (hflags : (project.orgFeatureSpamFilterIngest &&
      project.optionFeedbackAiSpamDetection) = true)
    (hctx : JVal.lookupKey fs "contexts" = some (.obj cfs))
    (hfb : JVal.lookupKey cfs "feedback" = some (.obj ffs))
    (hmsg : JVal.lookupKey ffs "message" = some msgv)
    (hres : env.isSpamResult msgv = .error ()) :
    classifyStage env project (.obj fs) =
      (none, [.classify msgv, .logException classifyLogMsg]) := by
  simp [classifyStage, hflags, pyItem, hctx, hfb, hmsg, bind, Except.bind, hres]

/-- On an accepted event the pipeline is the entry counter followed by
the classify stage and the build/publish stage. -/
theorem create_feedback_issue_accept (env : Env) (project_id : Int)
    (source : FeedbackCreationSource)
    (fs cfs ffs : List (String × JVal)) (s : String)
    (hctx : JVal.getD fs "contexts" .null = .obj cfs)
    (hfb : JVal.getD cfs "feedback" .null = .obj ffs)
    (hmsg : JVal.getD ffs "message" .null = .str s)
    (hne : s ≠ UNREAL_FEEDBACK_UNATTENDED_MESSAGE)
    (hstrip : pyStrip s ≠ "") :
    create_feedback_issue env (.obj fs) project_id source =
      ((afterClassify env (env.getProject project_id) (.obj fs) project_id source
          (classifyStage env (env.getProject project_id) (.obj fs)).1).1,
       enteredMetric ::
         ((classifyStage env (env.getProject project_id) (.obj fs)).2 ++
          (afterClassify env (env.getProject project_id) (.obj fs) project_id source
            (classifyStage env (env.getProject project_id) (.obj fs)).1).2)) := by
  have hf := should_filter_accept project_id source fs cfs ffs s hctx hfb hmsg hne hstrip
  simp [create_feedback_issue, hf]

end Sentry

namespace Sentry

/-- The classify stage emits at most a classifier call and a log line,
never a publish, signal or outcome. -/
theorem classifyStage_trace (env : Env) (project : Project) (event : JVal) :
    (classifyStage env project event).2 = [] ∨
    (∃ m, (classifyStage env project event).2 = [.classify m]) ∨
    (∃ m, (classifyStage env project event).2 =
      [.classify m, .logException classifyLogMsg]) ∨
    (classifyStage env project event).2 = [.logException classifyLogMsg] := by
  unfold classifyStage
  (repeat' split) <;> simp

/-- **C5.** `validate_issue_platform_event_schema` checks the current
schema first (one validation call, no metric, no error when it
passes); only on failure does it check the legacy schema (no metric,
no error when that passes); only when both fail does it increment the
invalid-schema counter and raise.  In that last case
`create_feedback_issue` fails with the schema error having published
no occurrence, dispatched no signal, produced no status change and
recorded no outcome. -/
theorem C5_schema_validation (env : Env) (project_id : Int)
    (source : FeedbackCreationSource) (v : JVal)
    (fs cfs ffs : List (String × JVal)) (s : String) (ts : Int) :
    (env.schemaOkCurrent v = true →
      validate_issue_platform_event_schema env v = (.ok (), [.validateCall v false])) ∧
    (env.schemaOkCurrent v = false → env.schemaOkLegacy v = true →
      validate_issue_platform_event_schema env v =
        (.ok (), [.validateCall v false, .validateCall v true])) ∧
    (env.schemaOkCurrent v = false → env.schemaOkLegacy v = false →
      validate_issue_platform_event_schema env v =
        (.error .schemaError,
         [.validateCall v false, .validateCall v true,
          .metricIncr "feedback.create_feedback_issue.invalid_schema" []])) ∧
    ((∀ w, env.schemaOkCurrent w = false) → (∀ w, env.schemaOkLegacy w = false) →
      JVal.NoDupKeys fs →
      JVal.lookupKey fs "contexts" = some (.obj cfs) →
      JVal.lookupKey cfs "feedback" = some (.obj ffs) →
      JVal.lookupKey ffs "message" = some (.str s) →
      JVal.lookupKey fs "timestamp" = some (.int ts) →
      s ≠ UNREAL_FEEDBACK_UNATTENDED_MESSAGE → pyStrip s ≠ "" →
      (JVal.lookupKey fs "user" = none ∨
        ∃ ufs, JVal.lookupKey fs "user" = some (.obj ufs)) →
      (JVal.getD fs "event_id" .null).truthy = true →
      (create_feedback_issue env (.obj fs) project_id source).1 = .error .schemaError ∧
      occurrencesOf (create_feedback_issue env (.obj fs) project_id source).2 = [] ∧
      (create_feedback_issue env (.obj fs) project_id source).2.countP isSignalEff = 0 ∧
      statusChangesOf (create_feedback_issue env (.obj fs) project_id source).2 = [] ∧
      outcomesOf (create_feedback_issue env (.obj fs) project_id source).2 = []) := by
  refine ⟨?_, ?_, ?_, ?_⟩
  · intro h; simp [validate_issue_platform_event_schema, h]
  · intro h1 h2; simp [validate_issue_platform_event_schema, h1, h2]
  · intro h1 h2; simp [validate_issue_platform_event_schema, h1, h2]
  · intro hcur hleg hn hctx hfb hmsg hts hne hstrip huser hsup
    have hctx' : JVal.getD fs "contexts" .null = .obj cfs := by
      unfold JVal.getD; rw [hctx]; rfl
    have hfb' : JVal.getD cfs "feedback" .null = .obj ffs := by
      unfold JVal.getD; rw [hfb]; rfl
    have hmsg' : JVal.getD ffs "message" .null = .str s := by
      unfold JVal.getD; rw [hmsg]; rfl
    have hcr := create_feedback_issue_accept env project_id source fs cfs ffs s
      hctx' hfb' hmsg' hne hstrip
    obtain ⟨efs, hb, hret⟩ := afterClassify_build_with_eid env (env.getProject project_id)
      project_id source (classifyStage env (env.getProject project_id) (.obj fs)).1
      fs cfs ffs ts (.str s) (JVal.getD fs "event_id" .null) hn hctx hfb hmsg hts rfl
      hsup huser
    have hps := publishStage_schema_fail env (env.getProject project_id) project_id source
      (classifyStage env (env.getProject project_id) (.obj fs)).1
      { id := env.uuid4hex 1
        event_id := JVal.getD fs "event_id" .null
        project_id := project_id
        fingerprint := [env.uuid4hex 0]
        issue_title := "User Feedback"
        subtitle := .str s
        resource_id := none
        evidence_data := (make_evidence ffs source
          (classifyStage env (env.getProject project_id) (.obj fs)).1).1
        evidence_display := (make_evidence ffs source
          (classifyStage env (env.getProject project_id) (.obj fs)).1).2
        type := .FeedbackGroup
        detection_time := ts
        culprit := "user"
        level := JVal.getD fs "level" (.str "info") }
      (.obj efs) (JVal.getD fs "event_id" .null) (JVal.getD ffs "source" .null)
      (hcur _) (hleg _)
    rw [hcr, hb, hps]
    rcases classifyStage_trace env (env.getProject project_id) (.obj fs) with
      hc | ⟨m, hc⟩ | ⟨m, hc⟩ | hc <;>
      simp [hc, occurrencesOf, statusChangesOf, outcomesOf, isSignalEff, enteredMetric,
        List.countP_cons, List.countP_append]

end Sentry

namespace Sentry

/-- An environment in which both schema validations always fail. -/
def badSchemaEnv : Env :=
  { sampleEnv with schemaOkCurrent := fun _ => false, schemaOkLegacy := fun _ => false }

/-- Witness for C5: on the sample event with both schemas failing, the
pipeline fails with the schema error and publishes nothing; on a
passing current schema, validation is one call. -/
theorem C5_schema_validation_witness :
    (validate_issue_platform_event_schema sampleEnv (.obj []) =
      (.ok (), [.validateCall (.obj []) false])) ∧
    ((create_feedback_issue badSchemaEnv (.obj sampleEventFields) 7
        .NEW_FEEDBACK_ENVELOPE).1 = .error .schemaError ∧
     occurrencesOf (create_feedback_issue badSchemaEnv (.obj sampleEventFields) 7
        .NEW_FEEDBACK_ENVELOPE).2 = [] ∧
     (create_feedback_issue badSchemaEnv (.obj sampleEventFields) 7
        .NEW_FEEDBACK_ENVELOPE).2.countP isSignalEff = 0 ∧
     statusChangesOf (create_feedback_issue badSchemaEnv (.obj sampleEventFields) 7
        .NEW_FEEDBACK_ENVELOPE).2 = [] ∧
     outcomesOf (create_feedback_issue badSchemaEnv (.obj sampleEventFields) 7
        .NEW_FEEDBACK_ENVELOPE).2 = []) :=
  ⟨(C5_schema_validation sampleEnv 7 .NEW_FEEDBACK_ENVELOPE (.obj []) [] [] [] "" 0).1 rfl,
   (C5_schema_validation badSchemaEnv 7 .NEW_FEEDBACK_ENVELOPE .null
      sampleEventFields
      [("feedback", .obj [("message", .str "Great app!"),
        ("contact_email", .str "a@b.com")])]
      [("message", .str "Great app!"), ("contact_email", .str "a@b.com")]
      "Great app!" 1700000000).2.2.2
     (fun _ => rfl) (fun _ => rfl) (by unfold JVal.NoDupKeys; decide) rfl rfl rfl rfl
     (by decide) (by decide) (Or.inl rfl) rfl⟩

end Sentry

namespace Sentry

/-- A project that has not yet latched either first-feedback flag. -/
def firstProject : Project :=
  { sampleProject with flagHasFeedbacks := false, flagHasNewFeedbacks := false }

/-- `sampleEnv` over `firstProject`. -/
def firstEnv : Env := { sampleEnv with getProject := fun _ => firstProject }

/-- **C4, counterexample.**  On a concrete accepted submission whose
project has not seen feedback before, the pipeline's effect kinds are,
in order: entry counter, validation, the two first-seen signals, the
occurrence publish, the produced counter, the outcome — so the
first-seen signals fire *before* the publish, refuting the claimed
publish-then-signal order (restricting the trace to just those two
kinds shows the signal strictly first). -/
theorem C4_counterexample :
    ((create_feedback_issue firstEnv (.obj sampleEventFields) 7
        .NEW_FEEDBACK_ENVELOPE).2.map effKind) =
      ["metric", "validate", "first_feedback_signal", "first_new_feedback_signal",
       "publish_occurrence", "metric", "outcome"] ∧
    (((create_feedback_issue firstEnv (.obj sampleEventFields) 7
        .NEW_FEEDBACK_ENVELOPE).2.map effKind).filter
        (fun k => k == "publish_occurrence" || k == "first_feedback_signal")) =
      ["first_feedback_signal", "publish_occurrence"] :=
  ⟨rfl, rfl⟩

/-- **C4, amended.**  For every accepted submission that publishes
successfully, the side effects happen in exactly the order: filter
(which emits nothing on acceptance), classify, build, validate,
first-seen signal(s), publish, spam-triage status-change, outcome —
i.e. the first-seen signals precede the publish (the claim had them
after it). -/
theorem C4_amended_effect_order (env : Env) (project_id : Int)
    (source : FeedbackCreationSource)
    (fs cfs ffs : List (String × JVal)) (s : String) (ts : Int) (b : Bool)
    (hn : JVal.NoDupKeys fs)
    (hctx : JVal.lookupKey fs "contexts" = some (.obj cfs))
    (hfb : JVal.lookupKey cfs "feedback" = some (.obj ffs))
    (hmsg : JVal.lookupKey ffs "message" = some (.str s))
    (hts : JVal.lookupKey fs "timestamp" = some (.int ts))
    (hne : s ≠ UNREAL_FEEDBACK_UNATTENDED_MESSAGE)
    (hstrip : pyStrip s ≠ "")
    (huser : JVal.lookupKey fs "user" = none ∨
      ∃ ufs, JVal.lookupKey fs "user" = some (.obj ufs))
    (hsup : (JVal.getD fs "event_id" .null).truthy = true)
    (hcl : env.isSpamResult (.str s) = .ok b)
    (hschema : ∀ w, env.schemaOkCurrent w = true)
    (hpub : env.occurrencePublishOk = true)
    (hspub : env.statusChangePublishOk = true) :
    (create_feedback_issue env (.obj fs) project_id source).2.map effKind =
      ["metric"] ++
      (if (env.getProject project_id).orgFeatureSpamFilterIngest &&
          (env.getProject project_id).optionFeedbackAiSpamDetection then
        ["classify"] else []) ++
      ["validate"] ++
      (if !(env.getProject project_id).flagHasFeedbacks then
        ["first_feedback_signal"] else []) ++
      (if (source == .NEW_FEEDBACK_ENVELOPE ||
           source == .NEW_FEEDBACK_DJANGO_ENDPOINT) &&
          !(env.getProject project_id).flagHasNewFeedbacks then
        ["first_new_feedback_signal"] else []) ++
      ["publish_occurrence"] ++
      (if (env.getProject project_id).orgFeatureSpamFilterIngest &&
          (env.getProject project_id).optionFeedbackAiSpamDetection && b then
        (if (env.getProject project_id).orgFeatureSpamFilterActions then
          ["metric", "publish_status_change"] else []) else []) ++
      ["metric", "outcome"] := by
  have hctx' : JVal.getD fs "contexts" .null = .obj cfs := by
    unfold JVal.getD; rw [hctx]; rfl
  have hfb' : JVal.getD cfs "feedback" .null = .obj ffs := by
    unfold JVal.getD; rw [hfb]; rfl
  have hmsg' : JVal.getD ffs "message" .null = .str s := by
    unfold JVal.getD; rw [hmsg]; rfl
  have hcr := create_feedback_issue_accept env project_id source fs cfs ffs s
    hctx' hfb' hmsg' hne hstrip
  obtain ⟨efs, hb, _hret⟩ := afterClassify_build_with_eid env (env.getProject project_id)
    project_id source (classifyStage env (env.getProject project_id) (.obj fs)).1
    fs cfs ffs ts (.str s) (JVal.getD fs "event_id" .null) hn hctx hfb hmsg hts rfl
    hsup huser
  have hps := publishStage_ok env (env.getProject project_id) project_id source
    (classifyStage env (env.getProject project_id) (.obj fs)).1
    { id := env.uuid4hex 1
      event_id := JVal.getD fs "event_id" .null
      project_id := project_id
      fingerprint := [env.uuid4hex 0]
      issue_title := "User Feedback"
      subtitle := .str s
      resource_id := none
      evidence_data := (make_evidence ffs source
        (classifyStage env (env.getProject project_id) (.obj fs)).1).1
      evidence_display := (make_evidence ffs source
        (classifyStage env (env.getProject project_id) (.obj fs)).1).2
      type := .FeedbackGroup
      detection_time := ts
      culprit := "user"
      level := JVal.getD fs "level" (.str "info") }
    (.obj efs) (JVal.getD fs "event_id" .null) (JVal.getD ffs "source" .null)
    (hschema _) hpub hspub
  rw [hcr, hb, hps]
  by_cases hflags : ((env.getProject project_id).orgFeatureSpamFilterIngest &&
      (env.getProject project_id).optionFeedbackAiSpamDetection) = true
  · have hcs := classifyStage_on_ok env (env.getProject project_id) fs cfs ffs
      (.str s) b hflags hctx hfb hmsg hcl
    rw [hcs]
    cases b <;>
      simp [hflags, effKind, enteredMetric, List.map_append, apply_ite (List.map effKind)]
  · have hcs := classifyStage_off env (env.getProject project_id) (.obj fs)
      (by simpa using hflags)
    rw [hcs]
    simp [hflags, effKind, enteredMetric, List.map_append, apply_ite (List.map effKind),
      Bool.and_eq_true] at *
end Sentry

namespace Sentry

/-- `sampleEnv` over the spam-enabled `spamProject` with a classifier
that flags everything as spam. -/
def spamEnv : Env :=
  { sampleEnv with getProject := fun _ => spamProject, isSpamResult := fun _ => .ok true }

/-- Witness for the amended C4 ordering on a concrete spam-flagged run:
every stage fires, in the corrected order. -/
theorem C4_amended_effect_order_witness :
    (create_feedback_issue spamEnv (.obj sampleEventFields) 7
       .NEW_FEEDBACK_ENVELOPE).2.map effKind =
      ["metric", "classify", "validate", "first_feedback_signal",
       "first_new_feedback_signal", "publish_occurrence", "metric",
       "publish_status_change", "metric", "outcome"] := by
  have h := C4_amended_effect_order spamEnv 7 .NEW_FEEDBACK_ENVELOPE
    sampleEventFields
    [("feedback", .obj [("message", .str "Great app!"),
      ("contact_email", .str "a@b.com")])]
    [("message", .str "Great app!"), ("contact_email", .str "a@b.com")]
    "Great app!" 1700000000 true
    (by unfold JVal.NoDupKeys; decide) rfl rfl rfl rfl (by decide) (by decide)
    (Or.inl rfl) rfl rfl (fun _ => rfl) rfl rfl
  simpa using h

end Sentry

namespace Sentry

/-- **C6.** When the verdict is spam-`True` and the spam-actions flag
is on, the pipeline publishes — after the occurrence itself — exactly
one status-change record carrying the occurrence's own single-element
fingerprint with status `IGNORED` and substatus `FOREVER`, and
increments the spam-action counter, while the occurrence is still
published; with a `False` verdict, a disabled classifier gate (verdict
`None`), a raising classifier (verdict `None`), or the actions flag
off, no status-change record is published. -/
theorem C6_spam_auto_ignore (env : Env) (project_id : Int)
    (source : FeedbackCreationSource)
    (fs cfs ffs : List (String × JVal)) (s : String) (ts : Int)
    (hn : JVal.NoDupKeys fs)
    (hctx : JVal.lookupKey fs "contexts" = some (.obj cfs))
    (hfb : JVal.lookupKey cfs "feedback" = some (.obj ffs))
    (hmsg : JVal.lookupKey ffs "message" = some (.str s))
    (hts : JVal.lookupKey fs "timestamp" = some (.int ts))
    (hne : s ≠ UNREAL_FEEDBACK_UNATTENDED_MESSAGE)
    (hstrip : pyStrip s ≠ "")
    (huser : JVal.lookupKey fs "user" = none ∨
      ∃ ufs, JVal.lookupKey fs "user" = some (.obj ufs))
    (hsup : (JVal.getD fs "event_id" .null).truthy = true)
    (hschema : ∀ w, env.schemaOkCurrent w = true)
    (hpub : env.occurrencePublishOk = true)
    (hspub : env.statusChangePublishOk = true) :
    (((env.getProject project_id).orgFeatureSpamFilterIngest &&
        (env.getProject project_id).optionFeedbackAiSpamDetection) = true →
      env.isSpamResult (.str s) = .ok true →
      (env.getProject project_id).orgFeatureSpamFilterActions = true →
      ∃ efs,
        (create_feedback_issue env (.obj fs) project_id source).2.filter
            (fun e => isProduceOccurrenceEff e || isStatusChangeEff e) =
          [.produceOccurrence
            { id := env.uuid4hex 1
              event_id := JVal.getD fs "event_id" .null
              project_id := project_id
              fingerprint := [env.uuid4hex 0]
              issue_title := "User Feedback"
              subtitle := .str s
              resource_id := none
              evidence_data := (make_evidence ffs source (some true)).1
              evidence_display := (make_evidence ffs source (some true)).2
              type := .FeedbackGroup
              detection_time := ts
              culprit := "user"
              level := JVal.getD fs "level" (.str "info") } (.obj efs),
           .produceStatusChange
            { fingerprint := [env.uuid4hex 0]
              project_id := (env.getProject project_id).id
              new_status := .IGNORED
              new_substatus := .FOREVER }] ∧
        (create_feedback_issue env (.obj fs) project_id source).2.countP
          (isMetricNamed "feedback.spam-detection-actions.set-ignored") = 1) ∧
    (((env.getProject project_id).orgFeatureSpamFilterIngest &&
        (env.getProject project_id).optionFeedbackAiSpamDetection) = true →
      env.isSpamResult (.str s) = .ok false →
      statusChangesOf (create_feedback_issue env (.obj fs) project_id source).2 = []) ∧
    (((env.getProject project_id).orgFeatureSpamFilterIngest &&
        (env.getProject project_id).optionFeedbackAiSpamDetection) = false →
      statusChangesOf (create_feedback_issue env (.obj fs) project_id source).2 = []) ∧
    (((env.getProject project_id).orgFeatureSpamFilterIngest &&
        (env.getProject project_id).optionFeedbackAiSpamDetection) = true →
      env.isSpamResult (.str s) = .error () →
      statusChangesOf (create_feedback_issue env (.obj fs) project_id source).2 = []) ∧
    (((env.getProject project_id).orgFeatureSpamFilterIngest &&
        (env.getProject project_id).optionFeedbackAiSpamDetection) = true →
      env.isSpamResult (.str s) = .ok true →
      (env.getProject project_id).orgFeatureSpamFilterActions = false →
      statusChangesOf (create_feedback_issue env (.obj fs) project_id source).2 = [] ∧
      occurrencesOf (create_feedback_issue env (.obj fs) project_id source).2 ≠ []) := by
  have hctx' : JVal.getD fs "contexts" .null = .obj cfs := by
    unfold JVal.getD; rw [hctx]; rfl
  have hfb' : JVal.getD cfs "feedback" .null = .obj ffs := by
    unfold JVal.getD; rw [hfb]; rfl
  have hmsg' : JVal.getD ffs "message" .null = .str s := by
    unfold JVal.getD; rw [hmsg]; rfl
  have hcr := create_feedback_issue_accept env project_id source fs cfs ffs s
    hctx' hfb' hmsg' hne hstrip
  obtain ⟨efs, hb, _hret⟩ := afterClassify_build_with_eid env (env.getProject project_id)
    project_id source (classifyStage env (env.getProject project_id) (.obj fs)).1
    fs cfs ffs ts (.str s) (JVal.getD fs "event_id" .null) hn hctx hfb hmsg hts rfl
    hsup huser
  have hps := publishStage_ok env (env.getProject project_id) project_id source
    (classifyStage env (env.getProject project_id) (.obj fs)).1
    { id := env.uuid4hex 1
      event_id := JVal.getD fs "event_id" .null
      project_id := project_id
      fingerprint := [env.uuid4hex 0]
      issue_title := "User Feedback"
      subtitle := .str s
      resource_id := none
      evidence_data := (make_evidence ffs source
        (classifyStage env (env.getProject project_id) (.obj fs)).1).1
      evidence_display := (make_evidence ffs source
        (classifyStage env (env.getProject project_id) (.obj fs)).1).2
      type := .FeedbackGroup
      detection_time := ts
      culprit := "user"
      level := JVal.getD fs "level" (.str "info") }
    (.obj efs) (JVal.getD fs "event_id" .null) (JVal.getD ffs "source" .null)
    (hschema _) hpub hspub
  refine ⟨?_, ?_, ?_, ?_, ?_⟩
  · intro hflags hcl hact
    have hcs := classifyStage_on_ok env (env.getProject project_id) fs cfs ffs
      (.str s) true hflags hctx hfb hmsg hcl
    rw [hcs] at hb hps
    refine ⟨efs, ?_, ?_⟩ <;>
      rw [hcr, hcs, hb, hps] <;>
      by_cases h1 : (env.getProject project_id).flagHasFeedbacks <;>
      by_cases h2 : ((source == FeedbackCreationSource.NEW_FEEDBACK_ENVELOPE ||
          source == FeedbackCreationSource.NEW_FEEDBACK_DJANGO_ENDPOINT) &&
          !(env.getProject project_id).flagHasNewFeedbacks) = true <;>
      simp [h1, h2, hact, enteredMetric, isProduceOccurrenceEff, isStatusChangeEff,
        isMetricNamed, List.filter_append, List.countP_append, List.countP_cons]
  · intro hflags hcl
    have hcs := classifyStage_on_ok env (env.getProject project_id) fs cfs ffs
      (.str s) false hflags hctx hfb hmsg hcl
    rw [hcs] at hb hps
    rw [hcr, hcs, hb, hps]
    by_cases h1 : (env.getProject project_id).flagHasFeedbacks <;>
      by_cases h2 : ((source == FeedbackCreationSource.NEW_FEEDBACK_ENVELOPE ||
          source == FeedbackCreationSource.NEW_FEEDBACK_DJANGO_ENDPOINT) &&
          !(env.getProject project_id).flagHasNewFeedbacks) = true <;>
      simp [h1, h2, statusChangesOf, enteredMetric, List.filterMap_append]
  · intro hflags
    have hcs := classifyStage_off env (env.getProject project_id) (.obj fs)
      (by simpa using hflags)
    rw [hcs] at hb hps
    rw [hcr, hcs, hb, hps]
    by_cases h1 : (env.getProject project_id).flagHasFeedbacks <;>
      by_cases h2 : ((source == FeedbackCreationSource.NEW_FEEDBACK_ENVELOPE ||
          source == FeedbackCreationSource.NEW_FEEDBACK_DJANGO_ENDPOINT) &&
          !(env.getProject project_id).flagHasNewFeedbacks) = true <;>
      simp [h1, h2, statusChangesOf, enteredMetric, List.filterMap_append]
  · intro hflags hcl
    have hcs := classifyStage_on_err env (env.getProject project_id) fs cfs ffs
      (.str s) hflags hctx hfb hmsg hcl
    rw [hcs] at hb hps
    rw [hcr, hcs, hb, hps]
    by_cases h1 : (env.getProject project_id).flagHasFeedbacks <;>
      by_cases h2 : ((source == FeedbackCreationSource.NEW_FEEDBACK_ENVELOPE ||
          source == FeedbackCreationSource.NEW_FEEDBACK_DJANGO_ENDPOINT) &&
          !(env.getProject project_id).flagHasNewFeedbacks) = true <;>
      simp [h1, h2, statusChangesOf, enteredMetric, List.filterMap_append]
  · intro hflags hcl hact
    have hcs := classifyStage_on_ok env (env.getProject project_id) fs cfs ffs
      (.str s) true hflags hctx hfb hmsg hcl
    rw [hcs] at hb hps
    constructor <;>
      rw [hcr, hcs, hb, hps] <;>
      by_cases h1 : (env.getProject project_id).flagHasFeedbacks <;>
      by_cases h2 : ((source == FeedbackCreationSource.NEW_FEEDBACK_ENVELOPE ||
          source == FeedbackCreationSource.NEW_FEEDBACK_DJANGO_ENDPOINT) &&
          !(env.getProject project_id).flagHasNewFeedbacks) = true <;>
      simp [h1, h2, hact, statusChangesOf, occurrencesOf, enteredMetric,
        List.filterMap_append]

end Sentry

namespace Sentry

/-- Witness for C6: the spam-enabled run publishes the occurrence then
exactly one ignored/forever status change on the same fresh
single-element fingerprint, incrementing the spam-action counter once;
the spam-disabled run publishes no status change. -/
theorem C6_spam_auto_ignore_witness :
    (∃ efs,
      (create_feedback_issue spamEnv (.obj sampleEventFields) 7
          .NEW_FEEDBACK_ENVELOPE).2.filter
          (fun e => isProduceOccurrenceEff e || isStatusChangeEff e) =
        [.produceOccurrence
          { id := "uuid1"
            event_id := .str "abc123"
            project_id := 7
            fingerprint := ["uuid0"]
            issue_title := "User Feedback"
            subtitle := .str "Great app!"
            resource_id := none
            evidence_data := (make_evidence
              [("message", .str "Great app!"), ("contact_email", .str "a@b.com")]
              .NEW_FEEDBACK_ENVELOPE (some true)).1
            evidence_display := (make_evidence
              [("message", .str "Great app!"), ("contact_email", .str "a@b.com")]
              .NEW_FEEDBACK_ENVELOPE (some true)).2
            type := .FeedbackGroup
            detection_time := 1700000000
            culprit := "user"
            level := .str "info" } (.obj efs),
         .produceStatusChange
          { fingerprint := ["uuid0"]
            project_id := 7
            new_status := .IGNORED
            new_substatus := .FOREVER }] ∧
      (create_feedback_issue spamEnv (.obj sampleEventFields) 7
          .NEW_FEEDBACK_ENVELOPE).2.countP
        (isMetricNamed "feedback.spam-detection-actions.set-ignored") = 1) ∧
    statusChangesOf (create_feedback_issue sampleEnv (.obj sampleEventFields) 7
        .NEW_FEEDBACK_ENVELOPE).2 = [] :=
  ⟨(C6_spam_auto_ignore spamEnv 7 .NEW_FEEDBACK_ENVELOPE sampleEventFields
      [("feedback", .obj [("message", .str "Great app!"),
        ("contact_email", .str "a@b.com")])]
      [("message", .str "Great app!"), ("contact_email", .str "a@b.com")]
      "Great app!" 1700000000
      (by unfold JVal.NoDupKeys; decide) rfl rfl rfl rfl (by decide) (by decide)
      (Or.inl rfl) rfl (fun _ => rfl) rfl rfl).1 rfl rfl rfl,
   (C6_spam_auto_ignore sampleEnv 7 .NEW_FEEDBACK_ENVELOPE sampleEventFields
      [("feedback", .obj [("message", .str "Great app!"),
        ("contact_email", .str "a@b.com")])]
      [("message", .str "Great app!"), ("contact_email", .str "a@b.com")]
      "Great app!" 1700000000
      (by unfold JVal.NoDupKeys; decide) rfl rfl rfl rfl (by decide) (by decide)
      (Or.inl rfl) rfl (fun _ => rfl) rfl rfl).2.2.1 rfl⟩

end Sentry

namespace Sentry

set_option maxHeartbeats 1000000 in
/-- **C7.** Exactly one outcome record is written per successfully
published occurrence — outcome `ACCEPTED`, quantity 1, category
`USER_REPORT_V2`, `key_id` and `reason` null, the event's id and the
detection time — and when the occurrence publish fails, or schema
validation fails before it, no outcome record is written (and, for a
failed publish, no occurrence is emitted either). -/
theorem C7_outcome_record (env : Env) (project_id : Int)
    (source : FeedbackCreationSource)
    (fs cfs ffs : List (String × JVal)) (s : String) (ts : Int)
    (hn : JVal.NoDupKeys fs)
    (hctx : JVal.lookupKey fs "contexts" = some (.obj cfs))
    (hfb : JVal.lookupKey cfs "feedback" = some (.obj ffs))
    (hmsg : JVal.lookupKey ffs "message" = some (.str s))
    (hts : JVal.lookupKey fs "timestamp" = some (.int ts))
    (hne : s ≠ UNREAL_FEEDBACK_UNATTENDED_MESSAGE)
    (hstrip : pyStrip s ≠ "")
    (huser : JVal.lookupKey fs "user" = none ∨
      ∃ ufs, JVal.lookupKey fs "user" = some (.obj ufs))
    (hsup : (JVal.getD fs "event_id" .null).truthy = true) :
    ((∀ w, env.schemaOkCurrent w = true) → env.occurrencePublishOk = true →
      env.statusChangePublishOk = true →
      outcomesOf (create_feedback_issue env (.obj fs) project_id source).2 =
        [{ org_id := (env.getProject project_id).organization_id
           project_id := project_id
           key_id := none
           outcome := .ACCEPTED
           reason := none
           timestamp := ts
           event_id := JVal.getD fs "event_id" .null
           category := .USER_REPORT_V2
           quantity := 1 }]) ∧
    ((∀ w, env.schemaOkCurrent w = true) → env.occurrencePublishOk = false →
      outcomesOf (create_feedback_issue env (.obj fs) project_id source).2 = [] ∧
      occurrencesOf (create_feedback_issue env (.obj fs) project_id source).2 = []) ∧
    ((∀ w, env.schemaOkCurrent w = false) → (∀ w, env.schemaOkLegacy w = false) →
      outcomesOf (create_feedback_issue env (.obj fs) project_id source).2 = []) := by
  have hctx' : JVal.getD fs "contexts" .null = .obj cfs := by
    unfold JVal.getD; rw [hctx]; rfl
  have hfb' : JVal.getD cfs "feedback" .null = .obj ffs := by
    unfold JVal.getD; rw [hfb]; rfl
  have hmsg' : JVal.getD ffs "message" .null = .str s := by
    unfold JVal.getD; rw [hmsg]; rfl
  have hcr := create_feedback_issue_accept env project_id source fs cfs ffs s
    hctx' hfb' hmsg' hne hstrip
  obtain ⟨efs, hb, _hret⟩ := afterClassify_build_with_eid env (env.getProject project_id)
    project_id source (classifyStage env (env.getProject project_id) (.obj fs)).1
    fs cfs ffs ts (.str s) (JVal.getD fs "event_id" .null) hn hctx hfb hmsg hts rfl
    hsup huser
  refine ⟨?_, ?_, ?_⟩
  · intro hschema hpub hspub
    have hps := publishStage_ok env (env.getProject project_id) project_id source
      (classifyStage env (env.getProject project_id) (.obj fs)).1
      { id := env.uuid4hex 1
        event_id := JVal.getD fs "event_id" .null
        project_id := project_id
        fingerprint := [env.uuid4hex 0]
        issue_title := "User Feedback"
        subtitle := .str s
        resource_id := none
        evidence_data := (make_evidence ffs source
          (classifyStage env (env.getProject project_id) (.obj fs)).1).1
        evidence_display := (make_evidence ffs source
          (classifyStage env (env.getProject project_id) (.obj fs)).1).2
        type := .FeedbackGroup
        detection_time := ts
        culprit := "user"
        level := JVal.getD fs "level" (.str "info") }
      (.obj efs) (JVal.getD fs "event_id" .null) (JVal.getD ffs "source" .null)
      (hschema _) hpub hspub
    rw [hcr, hb, hps]
    rcases classifyStage_trace env (env.getProject project_id) (.obj fs) with
      hc | ⟨m, hc⟩ | ⟨m, hc⟩ | hc <;>
      rw [hc] <;>
      by_cases h1 : (env.getProject project_id).flagHasFeedbacks <;>
      by_cases h2 : ((source == FeedbackCreationSource.NEW_FEEDBACK_ENVELOPE ||
          source == FeedbackCreationSource.NEW_FEEDBACK_DJANGO_ENDPOINT) &&
          !(env.getProject project_id).flagHasNewFeedbacks) = true <;>
      by_cases h3 : (classifyStage env (env.getProject project_id) (.obj fs)).1 =
        some true <;>
      by_cases h4 : (env.getProject project_id).orgFeatureSpamFilterActions = true <;>
      simp [h1, h2, h3, h4, outcomesOf, enteredMetric, List.filterMap_append]
  · intro hschema hpub
    have hps := publishStage_publish_fail env (env.getProject project_id) project_id
      source (classifyStage env (env.getProject project_id) (.obj fs)).1
      { id := env.uuid4hex 1
        event_id := JVal.getD fs "event_id" .null
        project_id := project_id
        fingerprint := [env.uuid4hex 0]
        issue_title := "User Feedback"
        subtitle := .str s
        resource_id := none
        evidence_data := (make_evidence ffs source
          (classifyStage env (env.getProject project_id) (.obj fs)).1).1
        evidence_display := (make_evidence ffs source
          (classifyStage env (env.getProject project_id) (.obj fs)).1).2
        type := .FeedbackGroup
        detection_time := ts
        culprit := "user"
        level := JVal.getD fs "level" (.str "info") }
      (.obj efs) (JVal.getD fs "event_id" .null) (JVal.getD ffs "source" .null)
      (hschema _) hpub
    constructor <;>
      rw [hcr, hb, hps] <;>
      rcases classifyStage_trace env (env.getProject project_id) (.obj fs) with
        hc | ⟨m, hc⟩ | ⟨m, hc⟩ | hc <;>
      rw [hc] <;>
      by_cases h1 : (env.getProject project_id).flagHasFeedbacks <;>
      by_cases h2 : ((source == FeedbackCreationSource.NEW_FEEDBACK_ENVELOPE ||
          source == FeedbackCreationSource.NEW_FEEDBACK_DJANGO_ENDPOINT) &&
          !(env.getProject project_id).flagHasNewFeedbacks) = true <;>
      simp [h1, h2, outcomesOf, occurrencesOf, enteredMetric, List.filterMap_append]
  · intro hcur hleg
    have hps := publishStage_schema_fail env (env.getProject project_id) project_id
      source (classifyStage env (env.getProject project_id) (.obj fs)).1
      { id := env.uuid4hex 1
        event_id := JVal.getD fs "event_id" .null
        project_id := project_id
        fingerprint := [env.uuid4hex 0]
        issue_title := "User Feedback"
        subtitle := .str s
        resource_id := none
        evidence_data := (make_evidence ffs source
          (classifyStage env (env.getProject project_id) (.obj fs)).1).1
        evidence_display := (make_evidence ffs source
          (classifyStage env (env.getProject project_id) (.obj fs)).1).2
        type := .FeedbackGroup
        detection_time := ts
        culprit := "user"
        level := JVal.getD fs "level" (.str "info") }
      (.obj efs) (JVal.getD fs "event_id" .null) (JVal.getD ffs "source" .null)
      (hcur _) (hleg _)
    rw [hcr, hb, hps]
    rcases classifyStage_trace env (env.getProject project_id) (.obj fs) with
      hc | ⟨m, hc⟩ | ⟨m, hc⟩ | hc <;>
      rw [hc] <;>
      simp [outcomesOf, enteredMetric, List.filterMap_append]

end Sentry

namespace Sentry

/-- An environment whose occurrence publish fails. -/
def noKafkaEnv : Env := { sampleEnv with occurrencePublishOk := false }

/-- Witness for C7: the sample run writes exactly the expected outcome
record; with a failing publish neither an occurrence nor an outcome is
emitted. -/
theorem C7_outcome_record_witness :
    outcomesOf (create_feedback_issue sampleEnv (.obj sampleEventFields) 7
        .NEW_FEEDBACK_ENVELOPE).2 =
      [{ org_id := 42
         project_id := 7
         key_id := none
         outcome := .ACCEPTED
         reason := none
         timestamp := 1700000000
         event_id := .str "abc123"
         category := .USER_REPORT_V2
         quantity := 1 }] ∧
    (outcomesOf (create_feedback_issue noKafkaEnv (.obj sampleEventFields) 7
        .NEW_FEEDBACK_ENVELOPE).2 = [] ∧
     occurrencesOf (create_feedback_issue noKafkaEnv (.obj sampleEventFields) 7
        .NEW_FEEDBACK_ENVELOPE).2 = []) :=
  ⟨(C7_outcome_record sampleEnv 7 .NEW_FEEDBACK_ENVELOPE sampleEventFields
      [("feedback", .obj [("message", .str "Great app!"),
        ("contact_email", .str "a@b.com")])]
      [("message", .str "Great app!"), ("contact_email", .str "a@b.com")]
      "Great app!" 1700000000
      (by unfold JVal.NoDupKeys; decide) rfl rfl rfl rfl (by decide) (by decide)
      (Or.inl rfl) rfl).1 (fun _ => rfl) rfl rfl,
   (C7_outcome_record noKafkaEnv 7 .NEW_FEEDBACK_ENVELOPE sampleEventFields
      [("feedback", .obj [("message", .str "Great app!"),
        ("contact_email", .str "a@b.com")])]
      [("message", .str "Great app!"), ("contact_email", .str "a@b.com")]
      "Great app!" 1700000000
      (by unfold JVal.NoDupKeys; decide) rfl rfl rfl rfl (by decide) (by decide)
      (Or.inl rfl) rfl).2.1 (fun _ => rfl) rfl⟩

end Sentry

namespace Sentry

set_option maxHeartbeats 1000000 in
/-- **C8.** On every accepted submission that publishes successfully,
a caller-supplied (truthy) event id is used as-is, and an absent one
is replaced by the single fresh uuid drawn first; either way the very
same id appears as the published occurrence's `event_id`, as the
`event_id` field of the issue-platform event handed to the publisher,
and as the outcome record's `event_id` (the occurrence's own `id` is a
different, later uuid). -/
theorem C8_event_id_threading (env : Env) (project_id : Int)
    (source : FeedbackCreationSource)
    (fs cfs ffs : List (String × JVal)) (s : String) (ts : Int)
    (hn : JVal.NoDupKeys fs)
    (hctx : JVal.lookupKey fs "contexts" = some (.obj cfs))
    (hfb : JVal.lookupKey cfs "feedback" = some (.obj ffs))
    (hmsg : JVal.lookupKey ffs "message" = some (.str s))
    (hts : JVal.lookupKey fs "timestamp" = some (.int ts))
    (hne : s ≠ UNREAL_FEEDBACK_UNATTENDED_MESSAGE)
    (hstrip : pyStrip s ≠ "")
    (huser : JVal.lookupKey fs "user" = none ∨
      ∃ ufs, JVal.lookupKey fs "user" = some (.obj ufs))
    (hschema : ∀ w, env.schemaOkCurrent w = true)
    (hpub : env.occurrencePublishOk = true)
    (hspub : env.statusChangePublishOk = true) :
    ((JVal.getD fs "event_id" .null).truthy = true →
      (occurrencesOf (create_feedback_issue env (.obj fs) project_id source).2).map
          IssueOccurrence.event_id = [JVal.getD fs "event_id" .null] ∧
      (occurrencesOf (create_feedback_issue env (.obj fs) project_id source).2).map
          IssueOccurrence.id = [env.uuid4hex 1] ∧
      (∃ efs, publishedEventsOf
          (create_feedback_issue env (.obj fs) project_id source).2 = [.obj efs] ∧
        JVal.lookupKey efs "event_id" = some (JVal.getD fs "event_id" .null)) ∧
      (outcomesOf (create_feedback_issue env (.obj fs) project_id source).2).map
          OutcomeRecord.event_id = [JVal.getD fs "event_id" .null]) ∧
    ((JVal.getD fs "event_id" .null).truthy = false → env.uuid4hex 0 ≠ "" →
      (occurrencesOf (create_feedback_issue env (.obj fs) project_id source).2).map
          IssueOccurrence.event_id = [JVal.str (env.uuid4hex 0)] ∧
      (occurrencesOf (create_feedback_issue env (.obj fs) project_id source).2).map
          IssueOccurrence.id = [env.uuid4hex 2] ∧
      (∃ efs, publishedEventsOf
          (create_feedback_issue env (.obj fs) project_id source).2 = [.obj efs] ∧
        JVal.lookupKey efs "event_id" = some (JVal.str (env.uuid4hex 0))) ∧
      (outcomesOf (create_feedback_issue env (.obj fs) project_id source).2).map
          OutcomeRecord.event_id = [JVal.str (env.uuid4hex 0)]) := by
  have hctx' : JVal.getD fs "contexts" .null = .obj cfs := by
    unfold JVal.getD; rw [hctx]; rfl
  have hfb' : JVal.getD cfs "feedback" .null = .obj ffs := by
    unfold JVal.getD; rw [hfb]; rfl
  have hmsg' : JVal.getD ffs "message" .null = .str s := by
    unfold JVal.getD; rw [hmsg]; rfl
  have hcr := create_feedback_issue_accept env project_id source fs cfs ffs s
    hctx' hfb' hmsg' hne hstrip
  constructor
  · intro hsup
    obtain ⟨efs, hb, hret⟩ := afterClassify_build_with_eid env (env.getProject project_id)
      project_id source (classifyStage env (env.getProject project_id) (.obj fs)).1
      fs cfs ffs ts (.str s) (JVal.getD fs "event_id" .null) hn hctx hfb hmsg hts rfl
      hsup huser
    have hps := publishStage_ok env (env.getProject project_id) project_id source
      (classifyStage env (env.getProject project_id) (.obj fs)).1
      { id := env.uuid4hex 1
        event_id := JVal.getD fs "event_id" .null
        project_id := project_id
        fingerprint := [env.uuid4hex 0]
        issue_title := "User Feedback"
        subtitle := .str s
        resource_id := none
        evidence_data := (make_evidence ffs source
          (classifyStage env (env.getProject project_id) (.obj fs)).1).1
        evidence_display := (make_evidence ffs source
          (classifyStage env (env.getProject project_id) (.obj fs)).1).2
        type := .FeedbackGroup
        detection_time := ts
        culprit := "user"
        level := JVal.getD fs "level" (.str "info") }
      (.obj efs) (JVal.getD fs "event_id" .null) (JVal.getD ffs "source" .null)
      (hschema _) hpub hspub
    refine ⟨?_, ?_, ⟨efs, ?_, hret⟩, ?_⟩ <;>
      rw [hcr, hb, hps] <;>
      rcases classifyStage_trace env (env.getProject project_id) (.obj fs) with
        hc | ⟨m, hc⟩ | ⟨m, hc⟩ | hc <;>
      rw [hc] <;>
      by_cases h1 : (env.getProject project_id).flagHasFeedbacks <;>
      by_cases h2 : ((source == FeedbackCreationSource.NEW_FEEDBACK_ENVELOPE ||
          source == FeedbackCreationSource.NEW_FEEDBACK_DJANGO_ENDPOINT) &&
          !(env.getProject project_id).flagHasNewFeedbacks) = true <;>
      by_cases h3 : (classifyStage env (env.getProject project_id) (.obj fs)).1 =
        some true <;>
      by_cases h4 : (env.getProject project_id).orgFeatureSpamFilterActions = true <;>
      simp [h1, h2, h3, h4, occurrencesOf, publishedEventsOf, outcomesOf,
        enteredMetric, List.filterMap_append]
  · intro hsup huuid0
    obtain ⟨efs, hb, hret⟩ := afterClassify_build_no_eid env (env.getProject project_id)
      project_id source (classifyStage env (env.getProject project_id) (.obj fs)).1
      fs cfs ffs ts (.str s) hn hctx hfb hmsg hts hsup huuid0 huser
    have hps := publishStage_ok env (env.getProject project_id) project_id source
      (classifyStage env (env.getProject project_id) (.obj fs)).1
      { id := env.uuid4hex 2
        event_id := JVal.str (env.uuid4hex 0)
        project_id := project_id
        fingerprint := [env.uuid4hex 1]
        issue_title := "User Feedback"
        subtitle := .str s
        resource_id := none
        evidence_data := (make_evidence ffs source
          (classifyStage env (env.getProject project_id) (.obj fs)).1).1
        evidence_display := (make_evidence ffs source
          (classifyStage env (env.getProject project_id) (.obj fs)).1).2
        type := .FeedbackGroup
        detection_time := ts
        culprit := "user"
        level := JVal.getD fs "level" (.str "info") }
      (.obj efs) (JVal.str (env.uuid4hex 0)) (JVal.getD ffs "source" .null)
      (hschema _) hpub hspub
    refine ⟨?_, ?_, ⟨efs, ?_, hret⟩, ?_⟩ <;>
      rw [hcr, hb, hps] <;>
      rcases classifyStage_trace env (env.getProject project_id) (.obj fs) with
        hc | ⟨m, hc⟩ | ⟨m, hc⟩ | hc <;>
      rw [hc] <;>
      by_cases h1 : (env.getProject project_id).flagHasFeedbacks <;>
      by_cases h2 : ((source == FeedbackCreationSource.NEW_FEEDBACK_ENVELOPE ||
          source == FeedbackCreationSource.NEW_FEEDBACK_DJANGO_ENDPOINT) &&
          !(env.getProject project_id).flagHasNewFeedbacks) = true <;>
      by_cases h3 : (classifyStage env (env.getProject project_id) (.obj fs)).1 =
        some true <;>
      by_cases h4 : (env.getProject project_id).orgFeatureSpamFilterActions = true <;>
      simp [h1, h2, h3, h4, occurrencesOf, publishedEventsOf, outcomesOf,
        enteredMetric, List.filterMap_append]

end Sentry

namespace Sentry

/-- The sample event with no `event_id` supplied. -/
def noEidEventFields : List (String × JVal) :=
  [("contexts", .obj [("feedback", .obj
      [("message", .str "Great app!"), ("contact_email", .str "a@b.com")])]),
   ("timestamp", .int 1700000000),
   ("received", .str "2023-11-14T22:13:20Z"),
   ("project_id", .int 7)]

/-- Witness for C8: with a supplied id "abc123" that id reaches the
occurrence, the published event and the outcome; without one, the
fresh "uuid0" does, while the occurrence's own id is the later
"uuid2". -/
theorem C8_event_id_threading_witness :
    ((occurrencesOf (create_feedback_issue sampleEnv (.obj sampleEventFields) 7
        .NEW_FEEDBACK_ENVELOPE).2).map IssueOccurrence.event_id = [.str "abc123"] ∧
     (occurrencesOf (create_feedback_issue sampleEnv (.obj sampleEventFields) 7
        .NEW_FEEDBACK_ENVELOPE).2).map IssueOccurrence.id = ["uuid1"] ∧
     (∃ efs, publishedEventsOf (create_feedback_issue sampleEnv
          (.obj sampleEventFields) 7 .NEW_FEEDBACK_ENVELOPE).2 = [.obj efs] ∧
        JVal.lookupKey efs "event_id" = some (.str "abc123")) ∧
     (outcomesOf (create_feedback_issue sampleEnv (.obj sampleEventFields) 7
        .NEW_FEEDBACK_ENVELOPE).2).map OutcomeRecord.event_id = [.str "abc123"]) ∧
    ((occurrencesOf (create_feedback_issue sampleEnv (.obj noEidEventFields) 7
        .NEW_FEEDBACK_ENVELOPE).2).map IssueOccurrence.event_id = [.str "uuid0"] ∧
     (occurrencesOf (create_feedback_issue sampleEnv (.obj noEidEventFields) 7
        .NEW_FEEDBACK_ENVELOPE).2).map IssueOccurrence.id = ["uuid2"] ∧
     (∃ efs, publishedEventsOf (create_feedback_issue sampleEnv
          (.obj noEidEventFields) 7 .NEW_FEEDBACK_ENVELOPE).2 = [.obj efs] ∧
        JVal.lookupKey efs "event_id" = some (.str "uuid0")) ∧
     (outcomesOf (create_feedback_issue sampleEnv (.obj noEidEventFields) 7
        .NEW_FEEDBACK_ENVELOPE).2).map OutcomeRecord.event_id = [.str "uuid0"]) :=
  ⟨(C8_event_id_threading sampleEnv 7 .NEW_FEEDBACK_ENVELOPE sampleEventFields
      [("feedback", .obj [("message", .str "Great app!"),
        ("contact_email", .str "a@b.com")])]
      [("message", .str "Great app!"), ("contact_email", .str "a@b.com")]
      "Great app!" 1700000000
      (by unfold JVal.NoDupKeys; decide) rfl rfl rfl rfl (by decide) (by decide)
      (Or.inl rfl) (fun _ => rfl) rfl rfl).1 rfl,
   (C8_event_id_threading sampleEnv 7 .NEW_FEEDBACK_ENVELOPE noEidEventFields
      [("feedback", .obj [("message", .str "Great app!"),
        ("contact_email", .str "a@b.com")])]
      [("message", .str "Great app!"), ("contact_email", .str "a@b.com")]
      "Great app!" 1700000000
      (by unfold JVal.NoDupKeys; decide) rfl rfl rfl rfl (by decide) (by decide)
      (Or.inl rfl) (fun _ => rfl) rfl rfl).2 rfl (by decide)⟩

end Sentry

namespace Sentry

/-- Schema validation emits no classifier call. -/
theorem validate_no_classify (env : Env) (v : JVal) :
    (validate_issue_platform_event_schema env v).2.countP isClassifyEff = 0 := by
  unfold validate_issue_platform_event_schema
  (repeat' split) <;> rfl

/-- Spam auto-triage emits no classifier call. -/
theorem auto_ignore_no_classify (env : Env) (p : Project) (fp : List String) :
    (auto_ignore_spam_feedbacks env p fp).2.countP isClassifyEff = 0 := by
  unfold auto_ignore_spam_feedbacks
  (repeat' split) <;> rfl

set_option maxHeartbeats 1000000 in
/-- The publish stage never invokes the classifier. -/
theorem publishStage_no_classify (env : Env) (project : Project) (project_id : Int)
    (source : FeedbackCreationSource) (spam : Option Bool)
    (occ : IssueOccurrence) (ef oeid csrc : JVal) :
    (publishStage env project project_id source spam occ ef oeid csrc).2.countP
      isClassifyEff = 0 := by
  have hv := validate_no_classify env ef
  have ha := auto_ignore_no_classify env project occ.fingerprint
  unfold publishStage
  rcases hval : validate_issue_platform_event_schema env ef with ⟨vres, veff⟩
  rw [hval] at hv
  rcases haig : auto_ignore_spam_feedbacks env project occ.fingerprint with ⟨ares, aeff⟩
  rw [haig] at ha
  cases vres with
  | error e => simpa using hv
  | ok u =>
    by_cases hpub : env.occurrencePublishOk = true
    · by_cases hsp : spam = some true
      · cases ares with
        | error e =>
          simp only [hpub, hsp, haig, if_true, ite_true]
          simp [List.countP_append, List.countP_cons, hv, ha, isClassifyEff] <;>
            (intros; subst_vars; rfl)
        | ok u2 =>
          simp only [hpub, hsp, haig, if_true, ite_true]
          simp [List.countP_append, List.countP_cons, hv, ha, isClassifyEff] <;>
            (intros; subst_vars; rfl)
      · simp only [hpub, hsp, if_true, ite_true, if_false, ite_false]
        simp [List.countP_append, List.countP_cons, hv, isClassifyEff] <;>
          (intros; subst_vars; rfl)
    · simp only [hpub, Bool.false_eq_true, if_false, ite_false]
      simp [List.countP_append, hv, isClassifyEff] <;>
        (intros; subst_vars; rfl)

end Sentry

namespace Sentry

set_option maxHeartbeats 1000000 in
/-- The build/publish stage after classification never invokes the
classifier. -/
theorem afterClassify_no_classify (env : Env) (project : Project) (event : JVal)
    (project_id : Int) (source : FeedbackCreationSource) (spam : Option Bool) :
    (afterClassify env project event project_id source spam).2.countP
      isClassifyEff = 0 := by
  unfold afterClassify
  dsimp only []
  (repeat' split) <;> first | rfl | apply publishStage_no_classify

/-- The filter stage never invokes the classifier. -/
theorem should_filter_no_classify (event : JVal) (project_id : Int)
    (source : FeedbackCreationSource) :
    (should_filter_feedback event project_id source).2.countP isClassifyEff = 0 := by
  unfold should_filter_feedback
  (repeat' split) <;> rfl

/-- A `None` verdict and a `False` verdict yield identical evidence. -/
theorem make_evidence_none_false (f : List (String × JVal))
    (source : FeedbackCreationSource) :
    make_evidence f source none = make_evidence f source (some false) := by
  simp [make_evidence]

/-- A `None` verdict and a `False` verdict drive the publish stage
identically. -/
theorem publishStage_none_false (env : Env) (project : Project) (project_id : Int)
    (source : FeedbackCreationSource) (occ : IssueOccurrence) (ef oeid csrc : JVal) :
    publishStage env project project_id source none occ ef oeid csrc =
      publishStage env project project_id source (some false) occ ef oeid csrc := by
  unfold publishStage
  simp

/-- A `None` verdict and a `False` verdict drive the whole
build/publish stage identically. -/
theorem afterClassify_none_false (env : Env) (project : Project) (event : JVal)
    (project_id : Int) (source : FeedbackCreationSource) :
    afterClassify env project event project_id source none =
      afterClassify env project event project_id source (some false) := by
  unfold afterClassify
  simp only [make_evidence_none_false, publishStage_none_false]

end Sentry

namespace Sentry

/-- **C3.** The spam classifier is invoked only when the organization
feature flag and the project option are both enabled; and whenever the
classifier raises, the exception is swallowed: the failure is logged,
nothing propagates, and the pipeline continues exactly as it would on
a non-spam (`False`) verdict — only the classify call and the log line
distinguish the traces. -/
theorem C3_spam_classifier_contract (env : Env) (project_id : Int)
    (source : FeedbackCreationSource)
    (fs cfs ffs : List (String × JVal)) (s : String) :
    (∀ (event : JVal),
      (create_feedback_issue env event project_id source).2.countP isClassifyEff ≠ 0 →
      ((env.getProject project_id).orgFeatureSpamFilterIngest &&
        (env.getProject project_id).optionFeedbackAiSpamDetection) = true) ∧
    (((env.getProject project_id).orgFeatureSpamFilterIngest &&
        (env.getProject project_id).optionFeedbackAiSpamDetection) = true →
      env.isSpamResult (.str s) = .error () →
      JVal.lookupKey fs "contexts" = some (.obj cfs) →
      JVal.lookupKey cfs "feedback" = some (.obj ffs) →
      JVal.lookupKey ffs "message" = some (.str s) →
      s ≠ UNREAL_FEEDBACK_UNATTENDED_MESSAGE → pyStrip s ≠ "" →
      create_feedback_issue env (.obj fs) project_id source =
        ((afterClassify env (env.getProject project_id) (.obj fs) project_id source
            (some false)).1,
         enteredMetric :: Effect.classify (.str s) ::
           Effect.logException classifyLogMsg ::
           (afterClassify env (env.getProject project_id) (.obj fs) project_id source
             (some false)).2)) := by
  constructor
  · intro event hcnt
    rcases Bool.eq_false_or_eq_true ((env.getProject project_id).orgFeatureSpamFilterIngest &&
      (env.getProject project_id).optionFeedbackAiSpamDetection) with hflags | hflags
    · exact hflags
    · exfalso
      apply hcnt
      have hff := should_filter_no_classify event project_id source
      have hcs := classifyStage_off env (env.getProject project_id) event hflags
      unfold create_feedback_issue
      rcases hfil : should_filter_feedback event project_id source with ⟨r, feff⟩
      rw [hfil] at hff
      have hff' : List.countP isClassifyEff feff = 0 := hff
      rcases r with e | b
      · simp only [enteredMetric, List.countP_cons, hff', isClassifyEff]
        simp
      · rcases b with _ | _
        · have hac := afterClassify_no_classify env (env.getProject project_id) event
            project_id source none
          simp only [hcs, enteredMetric, List.countP_cons, List.countP_append, hff',
            hac, isClassifyEff]
          simp
        · simp only [enteredMetric, List.countP_cons, hff', isClassifyEff]
          simp
  · intro hflags herr hctx hfb hmsg hne hstrip
    have hctx' : JVal.getD fs "contexts" .null = .obj cfs := by
      unfold JVal.getD; rw [hctx]; rfl
    have hfb' : JVal.getD cfs "feedback" .null = .obj ffs := by
      unfold JVal.getD; rw [hfb]; rfl
    have hmsg' : JVal.getD ffs "message" .null = .str s := by
      unfold JVal.getD; rw [hmsg]; rfl
    have hcr := create_feedback_issue_accept env project_id source fs cfs ffs s
      hctx' hfb' hmsg' hne hstrip
    have hcs := classifyStage_on_err env (env.getProject project_id) fs cfs ffs
      (.str s) hflags hctx hfb hmsg herr
    rw [hcr, hcs]
    simp [afterClassify_none_false]

end Sentry

namespace Sentry

/-- An environment whose classifier raises on every call. -/
def errEnv : Env :=
  { sampleEnv with getProject := fun _ => spamProject,
                   isSpamResult := fun _ => .error () }

/-- Witness for C3: a run that did invoke the classifier had both
gates on; and with a raising classifier the concrete run logs the
failure and continues exactly as the `False`-verdict run would. -/
theorem C3_spam_classifier_contract_witness :
    (((spamEnv.getProject 7).orgFeatureSpamFilterIngest &&
      (spamEnv.getProject 7).optionFeedbackAiSpamDetection) = true) ∧
    create_feedback_issue errEnv (.obj sampleEventFields) 7 .NEW_FEEDBACK_ENVELOPE =
      ((afterClassify errEnv (errEnv.getProject 7) (.obj sampleEventFields) 7
          .NEW_FEEDBACK_ENVELOPE (some false)).1,
       enteredMetric :: Effect.classify (.str "Great app!") ::
         Effect.logException classifyLogMsg ::
         (afterClassify errEnv (errEnv.getProject 7) (.obj sampleEventFields) 7
           .NEW_FEEDBACK_ENVELOPE (some false)).2) :=
  ⟨(C3_spam_classifier_contract spamEnv 7 .NEW_FEEDBACK_ENVELOPE [] [] [] "").1
     (.obj sampleEventFields) (by decide),
   (C3_spam_classifier_contract errEnv 7 .NEW_FEEDBACK_ENVELOPE sampleEventFields
      [("feedback", .obj [("message", .str "Great app!"),
        ("contact_email", .str "a@b.com")])]
      [("message", .str "Great app!"), ("contact_email", .str "a@b.com")]
      "Great app!").2 rfl rfl rfl rfl rfl (by decide) (by decide)⟩

end Sentry

namespace Sentry

/-- The missing-event counter name used by `shim_to_feedback`. -/
def missingEventMetric : String := "feedback.user_report.missing_event"

/-- Schema validation never increments the missing-event counter. -/
theorem validate_no_missing (env : Env) (v : JVal) :
    (validate_issue_platform_event_schema env v).2.countP
      (isMetricNamed missingEventMetric) = 0 := by
  unfold validate_issue_platform_event_schema
  (repeat' split) <;> rfl

/-- Spam auto-triage never increments the missing-event counter. -/
theorem auto_ignore_no_missing (env : Env) (p : Project) (fp : List String) :
    (auto_ignore_spam_feedbacks env p fp).2.countP
      (isMetricNamed missingEventMetric) = 0 := by
  unfold auto_ignore_spam_feedbacks
  (repeat' split) <;> rfl

set_option maxHeartbeats 1000000 in
/-- The publish stage never increments the missing-event counter. -/
theorem publishStage_no_missing (env : Env) (project : Project) (project_id : Int)
    (source : FeedbackCreationSource) (spam : Option Bool)
    (occ : IssueOccurrence) (ef oeid csrc : JVal) :
    (publishStage env project project_id source spam occ ef oeid csrc).2.countP
      (isMetricNamed missingEventMetric) = 0 := by
  have hv := validate_no_missing env ef
  have ha := auto_ignore_no_missing env project occ.fingerprint
  unfold publishStage
  rcases hval : validate_issue_platform_event_schema env ef with ⟨vres, veff⟩
  rw [hval] at hv
  rcases haig : auto_ignore_spam_feedbacks env project occ.fingerprint with ⟨ares, aeff⟩
  rw [haig] at ha
  have hvm : ∀ a ∈ veff, isMetricNamed missingEventMetric a = false := by
    intro a hm
    have h2 := List.countP_eq_zero.mp hv a hm
    cases h3 : isMetricNamed missingEventMetric a
    · rfl
    · exact absurd h3 h2
  have ham : ∀ a ∈ aeff, isMetricNamed missingEventMetric a = false := by
    intro a hm
    have h2 := List.countP_eq_zero.mp ha a hm
    cases h3 : isMetricNamed missingEventMetric a
    · rfl
    · exact absurd h3 h2
  cases vres with
  | error e => simpa using hv
  | ok u =>
    by_cases hpub : env.occurrencePublishOk = true
    · by_cases hsp : spam = some true
      · cases ares with
        | error e =>
          simp only [hpub, hsp, haig, if_true, ite_true]
          simp [List.countP_eq_zero, isMetricNamed, missingEventMetric]
          (repeat' apply And.intro) <;>
            first
              | (intros; subst_vars; rfl)
              | (intro a hm; exact hvm a hm)
              | (intro a hm; exact ham a hm)
        | ok u2 =>
          simp only [hpub, hsp, haig, if_true, ite_true]
          simp [List.countP_eq_zero, isMetricNamed, missingEventMetric]
          (repeat' apply And.intro) <;>
            first
              | (intros; subst_vars; rfl)
              | (intro a hm; exact hvm a hm)
              | (intro a hm; exact ham a hm)
      · simp only [hpub, hsp, if_true, ite_true, if_false, ite_false]
        simp [List.countP_eq_zero, isMetricNamed, missingEventMetric]
        (repeat' apply And.intro) <;>
          first
            | (intros; subst_vars; rfl)
            | (intro a hm; exact hvm a hm)
    · simp only [hpub, Bool.false_eq_true, if_false, ite_false]
      simp [List.countP_eq_zero, isMetricNamed, missingEventMetric]
      (repeat' apply And.intro) <;>
        first
          | (intros; subst_vars; rfl)
          | (intro a hm; exact hvm a hm)

set_option maxHeartbeats 1000000 in
/-- The build/publish stage never increments the missing-event counter. -/
theorem afterClassify_no_missing (env : Env) (project : Project) (event : JVal)
    (project_id : Int) (source : FeedbackCreationSource) (spam : Option Bool) :
    (afterClassify env project event project_id source spam).2.countP
      (isMetricNamed missingEventMetric) = 0 := by
  unfold afterClassify
  dsimp only []
  (repeat' split) <;> first | rfl | apply publishStage_no_missing

/-- The filter stage never increments the missing-event counter. -/
theorem should_filter_no_missing (event : JVal) (project_id : Int)
    (source : FeedbackCreationSource) :
    (should_filter_feedback event project_id source).2.countP
      (isMetricNamed missingEventMetric) = 0 := by
  unfold should_filter_feedback
  (repeat' split) <;> rfl

/-- `create_feedback_issue` never increments the missing-event
counter: that counter belongs to `shim_to_feedback` alone. -/
theorem create_no_missing (env : Env) (event : JVal) (project_id : Int)
    (source : FeedbackCreationSource) :
    (create_feedback_issue env event project_id source).2.countP
      (isMetricNamed missingEventMetric) = 0 := by
  have hff := should_filter_no_missing event project_id source
  unfold create_feedback_issue
  rcases hfil : should_filter_feedback event project_id source with ⟨r, feff⟩
  rw [hfil] at hff
  have hff' : List.countP (isMetricNamed missingEventMetric) feff = 0 := hff
  have hac := afterClassify_no_missing env (env.getProject project_id) event
    project_id source (classifyStage env (env.getProject project_id) event).1
  rcases r with e | b
  · simp only [enteredMetric, List.countP_cons, hff', isMetricNamed]
    simp [missingEventMetric]
  · rcases b with _ | _
    · rcases classifyStage_trace env (env.getProject project_id) event with
        hc | ⟨m, hc⟩ | ⟨m, hc⟩ | hc <;>
        simp only [hc, enteredMetric, List.countP_cons, List.countP_append, hff',
          hac, isMetricNamed] <;>
        simp [missingEventMetric]
    · simp only [enteredMetric, List.countP_cons, hff', isMetricNamed]
      simp [missingEventMetric]

end Sentry

namespace Sentry

/-- **C9.** For a legacy user report shimmed with no correlated event,
the synthesized feedback event defaults its timestamp to the current
time, its platform to "other" and its level to the report's level or
"info"; the missing-event counter is incremented exactly once (it
heads the trace and nothing later increments it again); and
`shim_to_feedback` does not raise — its catch-all handler makes the
trace total, so the run always yields the counter followed by the
pipeline's own effects (plus the logged failure when the inner
pipeline raised). -/
theorem C9_shim_missing_event (env : Env) (project : Project)
    (source : FeedbackCreationSource) (rfs : List (String × JVal))
    (email comments : JVal)
    (hemail : JVal.lookupKey rfs "email" = some email)
    (hcomments : JVal.lookupKey rfs "comments" = some comments) :
    ∃ fe tail,
      shimBuildEvent (.obj rfs) none env =
        (.ok (JVal.obj fe), [Effect.metricIncr missingEventMetric []]) ∧
      JVal.lookupKey fe "timestamp" = some (.int env.utcnowTs) ∧
      JVal.lookupKey fe "platform" = some (.str "other") ∧
      JVal.lookupKey fe "level" = some (JVal.getD rfs "level" (.str "info")) ∧
      shim_to_feedback (.obj rfs) none project source env =
        Effect.metricIncr missingEventMetric [] :: tail ∧
      tail.countP (isMetricNamed missingEventMetric) = 0 := by
  have hbs : shimBuildEvent (.obj rfs) none env =
      (.ok (JVal.obj
        [("contexts", JVal.obj [("feedback", JVal.obj
           (if (JVal.getD rfs "event_id" .null).truthy then
             JVal.setKey
               [("name", JVal.getD rfs "name" (.str "")),
                ("contact_email", email),
                ("message", comments)] "associated_event_id"
               (JVal.getD rfs "event_id" .null)
           else
             [("name", JVal.getD rfs "name" (.str "")),
              ("contact_email", email),
              ("message", comments)]))]),
         ("timestamp", JVal.int env.utcnowTs),
         ("platform", JVal.str "other"),
         ("level", JVal.getD rfs "level" (.str "info"))]),
       [Effect.metricIncr missingEventMetric []]) := by
    unfold shimBuildEvent
    dsimp only []
    rw [hemail, hcomments]
    rfl
  rcases hcfi : create_feedback_issue env (JVal.obj
        [("contexts", JVal.obj [("feedback", JVal.obj
           (if (JVal.getD rfs "event_id" .null).truthy then
             JVal.setKey
               [("name", JVal.getD rfs "name" (.str "")),
                ("contact_email", email),
                ("message", comments)] "associated_event_id"
               (JVal.getD rfs "event_id" .null)
           else
             [("name", JVal.getD rfs "name" (.str "")),
              ("contact_email", email),
              ("message", comments)]))]),
         ("timestamp", JVal.int env.utcnowTs),
         ("platform", JVal.str "other"),
         ("level", JVal.getD rfs "level" (.str "info"))]) project.id source
    with ⟨r, ceff⟩
  have hnm := create_no_missing env (JVal.obj
        [("contexts", JVal.obj [("feedback", JVal.obj
           (if (JVal.getD rfs "event_id" .null).truthy then
             JVal.setKey
               [("name", JVal.getD rfs "name" (.str "")),
                ("contact_email", email),
                ("message", comments)] "associated_event_id"
               (JVal.getD rfs "event_id" .null)
           else
             [("name", JVal.getD rfs "name" (.str "")),
              ("contact_email", email),
              ("message", comments)]))]),
         ("timestamp", JVal.int env.utcnowTs),
         ("platform", JVal.str "other"),
         ("level", JVal.getD rfs "level" (.str "info"))]) project.id source
  rw [hcfi] at hnm
  have hnm' : ceff.countP (isMetricNamed missingEventMetric) = 0 := hnm
  cases r with
  | ok u =>
    refine ⟨_, ceff, hbs, rfl, rfl, rfl, ?_, hnm'⟩
    unfold shim_to_feedback
    rw [hbs]
    dsimp only []
    rw [hcfi]
    rfl
  | error e =>
    refine ⟨_, ceff ++ [Effect.logException shimLogMsg], hbs, rfl, rfl, rfl, ?_, ?_⟩
    · unfold shim_to_feedback
      rw [hbs]
      dsimp only []
      rw [hcfi]
      simp
    · simp [List.countP_append, hnm', isMetricNamed]

end Sentry

namespace Sentry

/-- Witness for C9: a concrete legacy report with no correlated event. -/
theorem C9_shim_missing_event_witness :
    ∃ fe tail,
      shimBuildEvent (.obj [("name", .str "Jane"), ("email", .str "jane@x.com"),
          ("comments", .str "Broken page")]) none sampleEnv =
        (.ok (JVal.obj fe), [Effect.metricIncr missingEventMetric []]) ∧
      JVal.lookupKey fe "timestamp" = some (.int sampleEnv.utcnowTs) ∧
      JVal.lookupKey fe "platform" = some (.str "other") ∧
      JVal.lookupKey fe "level" = some (JVal.getD
        [("name", .str "Jane"), ("email", .str "jane@x.com"),
         ("comments", .str "Broken page")] "level" (.str "info")) ∧
      shim_to_feedback (.obj [("name", .str "Jane"), ("email", .str "jane@x.com"),
          ("comments", .str "Broken page")]) none sampleProject
          .USER_REPORT_ENVELOPE sampleEnv =
        Effect.metricIncr missingEventMetric [] :: tail ∧
      tail.countP (isMetricNamed missingEventMetric) = 0 :=
  C9_shim_missing_event sampleEnv sampleProject .USER_REPORT_ENVELOPE
    [("name", .str "Jane"), ("email", .str "jane@x.com"),
     ("comments", .str "Broken page")]
    (.str "jane@x.com") (.str "Broken page") rfl rfl

end Sentry

namespace Sentry

/-- What the in-place user mutations do when all three fields are
present and non-null: `name` and `isStaff` are gone, `id` is the
stringified original, and every other key is untouched. -/
theorem fixUserMutationsCore_spec (ufs : List (String × JVal))
    (nv sv idv : JVal) (hnu : JVal.NoDupKeys ufs)
    (hname : JVal.lookupKey ufs "name" = some nv) (hnv : nv.isNone = false)
    (hstaff : JVal.lookupKey ufs "isStaff" = some sv) (hsv : sv.isNone = false)
    (hid : JVal.lookupKey ufs "id" = some idv) (hidv : idv.isNone = false) :
    JVal.lookupKey (fixUserMutationsCore ufs) "name" = none ∧
    JVal.lookupKey (fixUserMutationsCore ufs) "isStaff" = none ∧
    JVal.lookupKey (fixUserMutationsCore ufs) "id" = some (.str (pyStr idv)) ∧
    ∀ k, k ≠ "name" → k ≠ "isStaff" → k ≠ "id" →
      JVal.lookupKey (fixUserMutationsCore ufs) k = JVal.lookupKey ufs k := by
  have h1 : JVal.getD ufs "name" .null = nv := by unfold JVal.getD; rw [hname]; rfl
  have hstaff1 : JVal.lookupKey (JVal.delKey ufs "name") "isStaff" = some sv := by
    rw [JVal.lookupKey_delKey_ne _ (by decide)]; exact hstaff
  have h2 : JVal.getD (JVal.delKey ufs "name") "isStaff" .null = sv := by
    unfold JVal.getD; rw [hstaff1]; rfl
  have hid1 : JVal.lookupKey (JVal.delKey (JVal.delKey ufs "name") "isStaff") "id" =
      some idv := by
    rw [JVal.lookupKey_delKey_ne _ (by decide), JVal.lookupKey_delKey_ne _ (by decide)]
    exact hid
  have h3 : JVal.getD (JVal.delKey (JVal.delKey ufs "name") "isStaff") "id" .null =
      idv := by
    unfold JVal.getD; rw [hid1]; rfl
  have hrw : fixUserMutationsCore ufs =
      JVal.setKey (JVal.delKey (JVal.delKey ufs "name") "isStaff") "id"
        (.str (pyStr idv)) := by
    unfold fixUserMutationsCore
    rw [h1, hnv]
    simp only [Bool.not_false, if_true, ite_true]
    rw [h2, hsv]
    simp only [Bool.not_false, if_true, ite_true]
    rw [h3, hidv]
    simp only [Bool.not_false, if_true, ite_true]
  rw [hrw]
  refine ⟨?_, ?_, JVal.lookupKey_setKey_self _ _ _, ?_⟩
  · rw [JVal.lookupKey_setKey_ne _ _ (by decide),
      JVal.lookupKey_delKey_ne _ (by decide),
      JVal.lookupKey_delKey_self _ _ hnu]
  · rw [JVal.lookupKey_setKey_ne _ _ (by decide),
      JVal.lookupKey_delKey_self _ _ (JVal.nodupKeys_delKey _ _ hnu)]
  · intro k hk1 hk2 hk3
    rw [JVal.lookupKey_setKey_ne _ _ hk3, JVal.lookupKey_delKey_ne _ hk2,
      JVal.lookupKey_delKey_ne _ hk1]

end Sentry

namespace Sentry

set_option maxHeartbeats 1000000 in
/-- **C10.** `fix_for_issue_platform` mutates its argument: it deletes
the top-level `dist` key and the user dict's `name`/`isStaff` keys in
place, coerces `user.id` to a string in place, and the returned
event's `contexts`, `user` and `tags` carry the very same
(post-mutation) dict values as the mutated input, so the in-place
changes — including the `user.email` backfill from `contact_email`,
which sets the key to `None` when `contact_email` is absent — are
visible through both the input and the returned event.  (Aliasing is
rendered in this value-level model as equality of the shared dicts'
post-state in both outputs.) -/
theorem C10_fix_mutates_and_aliases (fs cfs ffs ufs : List (String × JVal))
    (ts : Int) (rv pv ev tv dv nv sv idv : JVal)
    (hnfs : JVal.NoDupKeys fs) (hnufs : JVal.NoDupKeys ufs)
    (hts : JVal.lookupKey fs "timestamp" = some (.int ts))
    (hrv : JVal.lookupKey fs "received" = some rv)
    (hpv : JVal.lookupKey fs "project_id" = some pv)
    (hctx : JVal.lookupKey fs "contexts" = some (.obj cfs))
    (hfb : JVal.lookupKey cfs "feedback" = some (.obj ffs))
    (hev : JVal.lookupKey fs "event_id" = some ev)
    (htags : JVal.lookupKey fs "tags" = some tv)
    (huser : JVal.lookupKey fs "user" = some (.obj ufs))
    (hdist : JVal.lookupKey fs "dist" = some dv) (hdv : dv.isNone = false)
    (hname : JVal.lookupKey ufs "name" = some nv) (hnv : nv.isNone = false)
    (hstaff : JVal.lookupKey ufs "isStaff" = some sv) (hsv : sv.isNone = false)
    (hid : JVal.lookupKey ufs "id" = some idv) (hidv : idv.isNone = false)
    (hem : (JVal.getD ufs "email" (.str "")).truthy = false) :
    ∃ mfs rfs u',
      fix_for_issue_platform (.obj fs) = .ok (.obj mfs, .obj rfs) ∧
      JVal.lookupKey mfs "dist" = none ∧
      JVal.lookupKey mfs "user" = some (.obj u') ∧
      JVal.lookupKey u' "name" = none ∧
      JVal.lookupKey u' "isStaff" = none ∧
      JVal.lookupKey u' "id" = some (.str (pyStr idv)) ∧
      JVal.lookupKey u' "email" = some (JVal.getD ffs "contact_email" .null) ∧
      JVal.lookupKey rfs "user" = some (.obj u') ∧
      JVal.lookupKey rfs "contexts" = JVal.lookupKey mfs "contexts" ∧
      JVal.lookupKey rfs "tags" = some tv ∧
      JVal.lookupKey mfs "tags" = some tv := by
  obtain ⟨c, hctx1, hcfb⟩ := fixReplaySynth_ok cfs ffs hfb
  obtain ⟨hn1, hn2, hn3, hframe⟩ := fixUserMutationsCore_spec ufs nv sv idv hnufs
    hname hnv hstaff hsv hid hidv
  have hemlk : JVal.lookupKey (fixUserMutationsCore ufs) "email" =
      JVal.lookupKey ufs "email" :=
    hframe "email" (by decide) (by decide) (by decide)
  have hem' : ((JVal.lookupKey ufs "email").getD (JVal.str "")).truthy = false := hem
  have hdist1 : JVal.lookupKey (JVal.setKey fs "contexts" (JVal.obj c)) "dist" =
      some dv := by
    rw [JVal.lookupKey_setKey_ne _ _ (by decide)]; exact hdist
  unfold fix_for_issue_platform
  simp only [reqKey, hts, hrv, hpv, hctx, hev, fromtimestampIso, hctx1,
    bind, Except.bind, pure, Except.pure, fixUserMutations, fixEmailBackfill,
    pyGet, pyGetD, JVal.getD, Option.getD_some, hcfb, huser, hdist1, hdv,
    hemlk, hem', Option.isSome_some, Bool.not_false, eq_self_iff_true,
    if_true, ite_true]
  refine ⟨_, _, JVal.setKey (fixUserMutationsCore ufs) "email"
    ((JVal.lookupKey ffs "contact_email").getD JVal.null), rfl, ?_, ?_, ?_, ?_, ?_, ?_,
    ?_, ?_, ?_, ?_⟩
  · rw [JVal.lookupKey_setKey_ne _ _ (by decide),
      JVal.lookupKey_delKey_self _ _ (JVal.nodupKeys_setKey _ _ _ hnfs)]
  · exact JVal.lookupKey_setKey_self _ _ _
  · rw [JVal.lookupKey_setKey_ne _ _ (by decide)]; exact hn1
  · rw [JVal.lookupKey_setKey_ne _ _ (by decide)]; exact hn2
  · rw [JVal.lookupKey_setKey_ne _ _ (by decide)]; exact hn3
  · exact JVal.lookupKey_setKey_self _ _ _
  · split <;> rfl
  · rw [JVal.lookupKey_setKey_ne _ _ (by decide : ("contexts":String) ≠ "user"),
      JVal.lookupKey_delKey_ne _ (by decide : ("contexts":String) ≠ "dist"),
      JVal.lookupKey_setKey_self]
    split <;> rfl
  · simp only [htags, Option.getD_some]
    split <;> rfl
  · rw [JVal.lookupKey_setKey_ne _ _ (by decide),
      JVal.lookupKey_delKey_ne _ (by decide),
      JVal.lookupKey_setKey_ne _ _ (by decide)]
    exact htags

end Sentry

namespace Sentry

/-- Concrete feedback context for the C10 witness: `contact_email` is
absent, so the email backfill writes `None`. -/
def c10Ffs : List (String × JVal) := [("message", JVal.str "hi")]

/-- Concrete `contexts` for the C10 witness. -/
def c10Cfs : List (String × JVal) := [("feedback", JVal.obj c10Ffs)]

/-- Concrete user dict for the C10 witness: `name`, `isStaff` and a
numeric `id` present, `email` empty (falsy). -/
def c10Ufs : List (String × JVal) :=
  [("name", JVal.str "Jane"), ("isStaff", JVal.bool false), ("id", JVal.int 7),
   ("email", JVal.str "")]

/-- Concrete top-level event for the C10 witness, with a non-null
`dist` and a `tags` array. -/
def c10Fs : List (String × JVal) :=
  [("timestamp", JVal.int 1700000000),
   ("received", JVal.str "2023-11-14T22:13:20+00:00"),
   ("project_id", JVal.int 1), ("contexts", JVal.obj c10Cfs),
   ("event_id", JVal.str "abc123"), ("tags", JVal.arr []),
   ("user", JVal.obj c10Ufs), ("dist", JVal.str "release-1")]

/-- Witness for C10 on a concrete event: `dist` is gone from the
mutated input, the user dict seen through the mutated input and
through the returned event is the same post-mutation value (no `name`
or `isStaff`, stringified `id`, `email` backfilled to `None`), and
`contexts`/`tags` agree between the two outputs. -/
theorem C10_fix_mutates_and_aliases_witness :
    ∃ mfs rfs u',
      fix_for_issue_platform (.obj c10Fs) = .ok (.obj mfs, .obj rfs) ∧
      JVal.lookupKey mfs "dist" = none ∧
      JVal.lookupKey mfs "user" = some (.obj u') ∧
      JVal.lookupKey u' "name" = none ∧
      JVal.lookupKey u' "isStaff" = none ∧
      JVal.lookupKey u' "id" = some (.str (pyStr (.int 7))) ∧
      JVal.lookupKey u' "email" = some (JVal.getD c10Ffs "contact_email" .null) ∧
      JVal.lookupKey rfs "user" = some (.obj u') ∧
      JVal.lookupKey rfs "contexts" = JVal.lookupKey mfs "contexts" ∧
      JVal.lookupKey rfs "tags" = some (.arr []) ∧
      JVal.lookupKey mfs "tags" = some (.arr []) :=
  C10_fix_mutates_and_aliases c10Fs c10Cfs c10Ffs c10Ufs
    1700000000 (.str "2023-11-14T22:13:20+00:00") (.int 1) (.str "abc123")
    (.arr []) (.str "release-1") (.str "Jane") (.bool false) (.int 7)
    (by unfold JVal.NoDupKeys; decide) (by unfold JVal.NoDupKeys; decide)
    rfl rfl rfl rfl rfl rfl rfl rfl rfl rfl rfl rfl rfl rfl rfl rfl rfl

end Sentry
